import Mathlib

/-!
Verification development for the synthetic customer-record generator in
src/DataSynthesis/enhanced_known_generator.py (class EnhancedKnownGenerator).

The generator is embedded shallowly: every random primitive the Python code
calls (random.randint, random.choice, numpy.random.choice with a probability
vector, the Normal/Beta/Gamma/Poisson draws, uuid4, the wall clock and the
Faker strings) is modelled as an explicit input, so each generator method
becomes a pure Lean function of its raw draws.  Continuous draws are carried
as rationals; the support of a distribution (for example, Beta draws lie in
[0, 1]) appears as a hypothesis where a property depends on it.  Fallible
steps (dict lookups, numpy's probability validation, random.choice on a
possibly-empty list) return Except, mirroring the exceptions the Python
code can raise.
-/

set_option maxHeartbeats 1000000

/-- Association-list lookup modelling Python dict indexing / `key in dict`
membership tests (first binding wins). -/
def assocLookup {α β : Type} [DecidableEq α] : List (α × β) → α → Option β
  | [], _ => none
  | (k, v) :: rest, key => if key = k then some v else assocLookup rest key

/-- Models random.randint(lo, hi) (both bounds inclusive): the raw draw n is
reduced into the interval [lo, hi]. -/
def pyRandint (lo hi n : Nat) : Nat := lo + n % (hi + 1 - lo)

/-- Models random.choice on a list: uniform pick, IndexError on an empty
sequence. -/
def pyChoice {α : Type} : List α → Nat → Except String α
  | [], _ => .error "IndexError: cannot choose from an empty sequence"
  | a :: rest, n => .ok ((a :: rest).getD (n % (rest.length + 1)) a)

/-- Total uniform choice, used where the Python code calls random.choice (or
numpy.random.choice without weights) on a nonempty literal list, which can
never raise. -/
def choiceD (l : List String) (n : Nat) : String := l.getD (n % l.length) ""

/-- Sum of a probability vector. -/
def sumList (p : List Rat) : Rat := p.foldr (fun q acc => q + acc) 0

@[simp] theorem sumList_nil : sumList [] = 0 := rfl

@[simp] theorem sumList_cons (q : Rat) (qs : List Rat) :
    sumList (q :: qs) = q + sumList qs := rfl

/-- Walk the cumulative distribution: return the first option whose cumulative
probability strictly exceeds the uniform draw u (this is numpy's
cdf.searchsorted(u, side='right')). -/
def weightedPick {α : Type} : List α → List Rat → Rat → Option α
  | a :: rest, q :: qs, u => if u < q then some a else weightedPick rest qs (u - q)
  | _, _, _ => none

/-- numpy's tolerance for the probability-sum check in random.choice:
sqrt(float64 machine epsilon) = 2 ^ (-26). -/
def npAtol : Rat := 1 / 67108864

/-- Models numpy.random.choice(options, p=p) driven by a uniform draw
u ∈ [0,1): validate that the sizes agree, that p is non-negative and that it
sums to 1 within numpy's tolerance (ValueError otherwise), then pick against
the cumulative distribution normalized by its total, as numpy does. -/
def npChoice {α : Type} (options : List α) (p : List Rat) (u : Rat) :
    Except String α :=
  if options.length = p.length then
    if p.all (fun q => decide (0 ≤ q)) then
      if |sumList p - 1| ≤ npAtol then
        match weightedPick options (p.map (fun q => q / sumList p)) u with
        | some a => .ok a
        | none => .error "ValueError: uniform draw outside cumulative range"
      else .error "ValueError: probabilities do not sum to 1"
    else .error "ValueError: probabilities are not non-negative"
  else .error "ValueError: a and p must have same size"

theorem weightedPick_mem {α : Type} :
    ∀ (opts : List α) (p : List Rat) (u : Rat) (a : α),
      weightedPick opts p u = some a → a ∈ opts
  | [], [], _, _, h => by simp [weightedPick] at h
  | [], _ :: _, _, _, h => by simp [weightedPick] at h
  | _ :: _, [], _, _, h => by simp [weightedPick] at h
  | b :: rest, q :: qs, u, a, h => by
    by_cases hu : u < q
    · simp [weightedPick, hu] at h
      simp [h]
    · simp [weightedPick, hu] at h
      exact List.mem_cons_of_mem _ (weightedPick_mem rest qs (u - q) a h)

theorem weightedPick_isSome {α : Type} :
    ∀ (opts : List α) (p : List Rat) (u : Rat),
      opts.length = p.length → 0 ≤ u → u < sumList p →
      (weightedPick opts p u).isSome = true
  | [], [], u, _, h0, h1 => by
    simp only [sumList_nil] at h1
    exact absurd (lt_of_le_of_lt h0 h1) (lt_irrefl 0)
  | [], _ :: _, _, hl, _, _ => by simp at hl
  | _ :: _, [], _, hl, _, _ => by simp at hl
  | b :: rest, q :: qs, u, hl, h0, h1 => by
    by_cases hu : u < q
    · simp [weightedPick, hu]
    · have hq : q ≤ u := le_of_not_lt hu
      have h0' : 0 ≤ u - q := by linarith
      have h1' : u - q < sumList qs := by
        simp only [sumList_cons] at h1; linarith
      have hl' : rest.length = qs.length := by simpa using hl
      simpa [weightedPick, hu] using weightedPick_isSome rest qs (u - q) hl' h0' h1'

theorem sumList_map_div (p : List Rat) (s : Rat) :
    sumList (p.map (fun q => q / s)) = sumList p / s := by
  induction p with
  | nil => simp
  | cons q qs ih => simp only [List.map_cons, sumList_cons, ih]; ring

theorem npChoice_ok_mem {α : Type} {options : List α} {p : List Rat} {u : Rat}
    {a : α} (h : npChoice options p u = .ok a) : a ∈ options := by
  unfold npChoice at h
  split at h
  · split at h
    · split at h
      · cases hw : weightedPick options (p.map (fun q => q / sumList p)) u with
        | none => rw [hw] at h; exact absurd h (by simp)
        | some b =>
          rw [hw] at h
          simp only [Except.ok.injEq] at h
          exact h ▸ weightedPick_mem _ _ _ _ hw
      · exact absurd h (by simp)
    · exact absurd h (by simp)
  · exact absurd h (by simp)

theorem npChoice_ok_exists {α : Type} (options : List α) (p : List Rat) (u : Rat)
    (hlen : options.length = p.length)
    (hpos : p.all (fun q => decide (0 ≤ q)) = true)
    (hsum : |sumList p - 1| ≤ npAtol) (hu0 : 0 ≤ u) (hu1 : u < 1) :
    ∃ a, npChoice options p u = .ok a ∧ a ∈ options := by
  have hs : (1 : Rat) - npAtol ≤ sumList p := by
    have h := abs_le.mp hsum
    linarith [h.1]
  have hspos : (0 : Rat) < sumList p := by
    have : (0 : Rat) < 1 - npAtol := by norm_num [npAtol]
    linarith
  have hnorm : sumList (p.map (fun q => q / sumList p)) = 1 := by
    rw [sumList_map_div]
    exact div_self (ne_of_gt hspos)
  have hlen' : options.length = (p.map (fun q => q / sumList p)).length := by
    simpa using hlen
  have hu' : u < sumList (p.map (fun q => q / sumList p)) := by
    rw [hnorm]; exact hu1
  have hsome := weightedPick_isSome options _ u hlen' hu0 hu'
  cases hw : weightedPick options (p.map (fun q => q / sumList p)) u with
  | none => rw [hw] at hsome; simp at hsome
  | some a =>
    refine ⟨a, ?_, weightedPick_mem _ _ _ _ hw⟩
    unfold npChoice
    rw [if_pos hlen, if_pos hpos, if_pos hsum, hw]

theorem pyRandint_bounds (lo hi n : Nat) (h : lo ≤ hi) :
    lo ≤ pyRandint lo hi n ∧ pyRandint lo hi n ≤ hi := by
  unfold pyRandint
  have hpos : 0 < hi + 1 - lo := by omega
  have := Nat.mod_lt n hpos
  omega

theorem pyChoice_ok_mem {α : Type} {l : List α} {n : Nat} {a : α}
    (h : pyChoice l n = .ok a) : a ∈ l := by
  cases l with
  | nil => simp [pyChoice] at h
  | cons b rest =>
    simp only [pyChoice, Except.ok.injEq] at h
    have hlt : n % (rest.length + 1) < (b :: rest).length := by
      simp only [List.length_cons]
      exact Nat.mod_lt n (Nat.succ_pos _)
    rw [List.getD_eq_getElem _ b hlt] at h
    exact h ▸ List.getElem_mem hlt

theorem choiceD_mem (l : List String) (n : Nat) (hne : l ≠ []) :
    choiceD l n ∈ l := by
  unfold choiceD
  have hlen : 0 < l.length := List.length_pos.mpr hne
  have hlt : n % l.length < l.length := Nat.mod_lt n hlen
  rw [List.getD_eq_getElem l "" hlt]
  exact List.getElem_mem hlt

theorem assocLookup_some_mem_snd {α β : Type} [DecidableEq α] :
    ∀ (l : List (α × β)) (k : α) (v : β),
      assocLookup l k = some v → v ∈ l.map Prod.snd
  | [], _, _, h => by simp [assocLookup] at h
  | (k', v') :: rest, k, v, h => by
    by_cases hk : k = k'
    · simp [assocLookup, hk] at h
      simp [h]
    · simp only [assocLookup, if_neg hk] at h
      exact List.mem_cons_of_mem _ (assocLookup_some_mem_snd rest k v h)

/-- Round-half-to-even on rationals, modelling Python's built-in round(). -/
def roundHalfEven (x : Rat) : Int :=
  if x - Int.floor x < 1 / 2 then Int.floor x
  else if 1 / 2 < x - Int.floor x then Int.floor x + 1
  else if Int.floor x % 2 = 0 then Int.floor x else Int.floor x + 1

/-- Models Python round(x, n) for a positive digit count n, with exact
rational arithmetic in place of floats. -/
def pyRound (n : Nat) (x : Rat) : Rat :=
  ((roundHalfEven (x * ((10 ^ n : Nat) : Rat)) : Int) : Rat) / ((10 ^ n : Nat) : Rat)

theorem roundHalfEven_ge_floor (x : Rat) : Int.floor x ≤ roundHalfEven x := by
  unfold roundHalfEven
  split_ifs <;> omega

theorem roundHalfEven_le_ceil (x : Rat) : roundHalfEven x ≤ Int.ceil x := by
  have hfc : Int.floor x ≤ Int.ceil x := Int.floor_le_ceil x
  unfold roundHalfEven
  split_ifs with h1 h2 h3
  · exact hfc
  · have hx : ((Int.floor x : Int) : Rat) < x := by linarith
    have := Int.lt_ceil.mpr hx
    omega
  · exact hfc
  · have h1' : (1 : Rat) / 2 ≤ x - Int.floor x := le_of_not_lt h1
    have hx : ((Int.floor x : Int) : Rat) < x := by linarith
    have := Int.lt_ceil.mpr hx
    omega

theorem pyRound_mem_unit (n : Nat) (x : Rat) (h0 : 0 ≤ x) (h1 : x ≤ 1) :
    0 ≤ pyRound n x ∧ pyRound n x ≤ 1 := by
  have hmpos : (0 : Rat) < ((10 ^ n : Nat) : Rat) := by positivity
  have hx0 : 0 ≤ x * ((10 ^ n : Nat) : Rat) := mul_nonneg h0 (le_of_lt hmpos)
  have hx1 : x * ((10 ^ n : Nat) : Rat) ≤ ((10 ^ n : Nat) : Rat) := by nlinarith
  have hf : (0 : Int) ≤ Int.floor (x * ((10 ^ n : Nat) : Rat)) :=
    Int.floor_nonneg.mpr hx0
  have hge := roundHalfEven_ge_floor (x * ((10 ^ n : Nat) : Rat))
  have hle := roundHalfEven_le_ceil (x * ((10 ^ n : Nat) : Rat))
  have hcast : (((10 ^ n : Nat) : Int) : Rat) = ((10 ^ n : Nat) : Rat) := by
    push_cast; ring
  have hc : Int.ceil (x * ((10 ^ n : Nat) : Rat)) ≤ ((10 ^ n : Nat) : Int) :=
    Int.ceil_le.mpr (by rw [hcast]; exact hx1)
  have hlow : (0 : Int) ≤ roundHalfEven (x * ((10 ^ n : Nat) : Rat)) := le_trans hf hge
  have hhigh : roundHalfEven (x * ((10 ^ n : Nat) : Rat)) ≤ ((10 ^ n : Nat) : Int) :=
    le_trans hle hc
  constructor
  · apply div_nonneg _ (le_of_lt hmpos)
    exact_mod_cast hlow
  · rw [pyRound, div_le_one hmpos]
    calc ((roundHalfEven (x * ((10 ^ n : Nat) : Rat)) : Int) : Rat)
        ≤ (((10 ^ n : Nat) : Int) : Rat) := by exact_mod_cast hhigh
      _ = ((10 ^ n : Nat) : Rat) := hcast

/-- Inversion of a successful Except bind. -/
theorem bind_ok_inv {α β : Type} {x : Except String α} {f : α → Except String β}
    {b : β} (h : x >>= f = .ok b) : ∃ a, x = .ok a ∧ f a = .ok b := by
  cases x with
  | error e => simp [Bind.bind, Except.bind] at h
  | ok a => exact ⟨a, rfl, by simpa [Bind.bind, Except.bind] using h⟩

/-! ## Configuration tables (EnhancedKnownGenerator.__init__) -/

structure CountryData where
  weight : Nat
  cities : List String
  states : List String
  timezone : String
  city_types : List (String × String)

structure DeviceData where
  browsers : List String
  os : List String

structure Config where
  apj_countries : List (String × CountryData)
  locality_types : List String
  locality_weights : List Rat
  devices : List (String × DeviceData)
  utm_sources : List String
  utm_mediums : List String
  segments : List String
  email_domains : List (String × List String)
  age_bands : List (Nat × Nat × String)
  age_band_weights : List Rat
  income_levels : List String
  income_probabilities : List (String × List Rat)
  life_stages : List String
  life_stage_probabilities : List (String × List Rat)
  purchase_frequencies : List String
  purchase_values : List String
  brand_loyalties : List String
  shopping_channels : List String
  purchase_freq_by_income : List (String × List Rat)
  purchase_value_matrix : List ((String × String) × List Rat)
  brand_loyalty_by_life_stage : List (String × List Rat)
  channel_by_locality : List (String × List Rat)
  engagement_behaviors : List String
  price_sensitivities : List String
  product_interests : List String

/-- The tables hard-coded in EnhancedKnownGenerator.__init__, transcribed
verbatim from the source. -/
def builtinConfig : Config :=
  { apj_countries :=
      [("Australia",
        { weight := 15, cities := ["Sydney", "Melbourne", "Brisbane", "Perth"],
          states := ["NSW", "VIC", "QLD", "WA"], timezone := "AEDT",
          city_types := [("Sydney", "metro"), ("Melbourne", "metro"),
                         ("Brisbane", "metro"), ("Perth", "metro")] }),
       ("Japan",
        { weight := 20, cities := ["Tokyo", "Osaka", "Yokohama", "Nagoya"],
          states := ["Tokyo", "Osaka", "Kanagawa", "Aichi"], timezone := "JST",
          city_types := [("Tokyo", "metro"), ("Osaka", "metro"),
                         ("Yokohama", "metro"), ("Nagoya", "metro")] }),
       ("South Korea",
        { weight := 12, cities := ["Seoul", "Busan", "Incheon", "Daegu"],
          states := ["Seoul", "Busan", "Incheon", "Daegu"], timezone := "KST",
          city_types := [("Seoul", "metro"), ("Busan", "metro"),
                         ("Incheon", "metro"), ("Daegu", "metro")] }),
       ("China",
        { weight := 25, cities := ["Shanghai", "Beijing", "Guangzhou", "Shenzhen"],
          states := ["Shanghai", "Beijing", "Guangdong", "Guangdong"], timezone := "CST",
          city_types := [("Shanghai", "metro"), ("Beijing", "metro"),
                         ("Guangzhou", "metro"), ("Shenzhen", "metro")] }),
       ("India",
        { weight := 18, cities := ["Mumbai", "Delhi", "Bangalore", "Chennai"],
          states := ["Maharashtra", "Delhi", "Karnataka", "Tamil Nadu"], timezone := "IST",
          city_types := [("Mumbai", "metro"), ("Delhi", "metro"),
                         ("Bangalore", "metro"), ("Chennai", "metro")] }),
       ("Singapore",
        { weight := 5, cities := ["Singapore"], states := ["Singapore"],
          timezone := "SGT", city_types := [("Singapore", "metro")] }),
       ("Thailand",
        { weight := 3, cities := ["Bangkok", "Chiang Mai"],
          states := ["Bangkok", "Chiang Mai"], timezone := "ICT",
          city_types := [("Bangkok", "metro"), ("Chiang Mai", "metro")] }),
       ("Malaysia",
        { weight := 2, cities := ["Kuala Lumpur", "Penang"],
          states := ["Selangor", "Penang"], timezone := "MYT",
          city_types := [("Kuala Lumpur", "metro"), ("Penang", "metro")] })],
    locality_types := ["metro", "suburban", "regional"],
    locality_weights := [0.55, 0.30, 0.15],
    devices :=
      [("mobile", { browsers := ["Chrome Mobile", "Safari Mobile", "Samsung Internet", "Firefox Mobile"],
                    os := ["Android", "iOS"] }),
       ("desktop", { browsers := ["Chrome", "Safari", "Firefox", "Edge"],
                     os := ["Windows", "macOS", "Linux"] }),
       ("tablet", { browsers := ["Chrome Mobile", "Safari Mobile"],
                    os := ["Android", "iOS"] })],
    utm_sources := ["google", "facebook", "instagram", "linkedin", "twitter",
                    "tiktok", "youtube", "bing", "direct", "organic"],
    utm_mediums := ["cpc", "organic", "social", "email", "referral", "direct",
                    "display", "video"],
    segments := ["new-customer", "returning", "high-value", "medium-value",
                 "low-value", "vip", "at-risk", "loyal", "re-engaged"],
    email_domains :=
      [("Australia", ["gmail.com", "yahoo.com.au", "outlook.com.au", "bigpond.com", "optusnet.com.au"]),
       ("Japan", ["gmail.com", "yahoo.co.jp", "outlook.jp", "nifty.com", "biglobe.ne.jp"]),
       ("South Korea", ["gmail.com", "naver.com", "daum.net", "hanmail.net", "korea.com"]),
       ("China", ["gmail.com", "qq.com", "163.com", "126.com", "sina.com"]),
       ("India", ["gmail.com", "yahoo.in", "rediffmail.com", "outlook.in", "hotmail.com"]),
       ("Singapore", ["gmail.com", "yahoo.com.sg", "outlook.sg", "singnet.com.sg"]),
       ("Thailand", ["gmail.com", "yahoo.co.th", "hotmail.com", "outlook.co.th"]),
       ("Malaysia", ["gmail.com", "yahoo.com.my", "hotmail.my", "outlook.my"])],
    age_bands := [(18, 24, "18-24"), (25, 34, "25-34"), (35, 44, "35-44"),
                  (45, 54, "45-54"), (55, 64, "55-64"), (65, 99, "65+")],
    age_band_weights := [0.28, 0.32, 0.18, 0.12, 0.07, 0.03],
    income_levels := ["budget_conscious", "mid_tier", "luxury"],
    income_probabilities :=
      [("18-24", [0.65, 0.30, 0.05]), ("25-34", [0.45, 0.45, 0.10]),
       ("35-44", [0.30, 0.50, 0.20]), ("45-54", [0.25, 0.45, 0.30]),
       ("55-64", [0.30, 0.40, 0.30]), ("65+", [0.40, 0.35, 0.25])],
    life_stages := ["student", "young_professional", "parent", "empty_nester", "retiree"],
    life_stage_probabilities :=
      [("18-24", [0.60, 0.35, 0.05, 0.00, 0.00]),
       ("25-34", [0.10, 0.55, 0.35, 0.00, 0.00]),
       ("35-44", [0.02, 0.25, 0.70, 0.03, 0.00]),
       ("45-54", [0.00, 0.15, 0.60, 0.25, 0.00]),
       ("55-64", [0.00, 0.10, 0.20, 0.60, 0.10]),
       ("65+", [0.00, 0.05, 0.05, 0.20, 0.70])],
    purchase_frequencies := ["low_frequency", "medium_frequency", "high_frequency"],
    purchase_values := ["low_value", "medium_value", "high_value"],
    brand_loyalties := ["brand_switcher", "moderately_loyal", "brand_loyal"],
    shopping_channels := ["online_only", "offline_only", "omnichannel"],
    purchase_freq_by_income :=
      [("budget_conscious", [0.70, 0.25, 0.05]),
       ("mid_tier", [0.30, 0.55, 0.15]),
       ("luxury", [0.15, 0.35, 0.50])],
    purchase_value_matrix :=
      [(("18-24", "budget_conscious"), [0.85, 0.15, 0.00]),
       (("18-24", "mid_tier"), [0.60, 0.35, 0.05]),
       (("18-24", "luxury"), [0.30, 0.50, 0.20]),
       (("25-34", "budget_conscious"), [0.75, 0.20, 0.05]),
       (("25-34", "mid_tier"), [0.45, 0.45, 0.10]),
       (("25-34", "luxury"), [0.20, 0.50, 0.30]),
       (("35-44", "budget_conscious"), [0.70, 0.25, 0.05]),
       (("35-44", "mid_tier"), [0.35, 0.50, 0.15]),
       (("35-44", "luxury"), [0.15, 0.45, 0.40]),
       (("45-54", "budget_conscious"), [0.65, 0.30, 0.05]),
       (("45-54", "mid_tier"), [0.30, 0.50, 0.20]),
       (("45-54", "luxury"), [0.10, 0.40, 0.50]),
       (("55-64", "budget_conscious"), [0.70, 0.25, 0.05]),
       (("55-64", "mid_tier"), [0.35, 0.45, 0.20]),
       (("55-64", "luxury"), [0.15, 0.35, 0.50]),
       (("65+", "budget_conscious"), [0.75, 0.20, 0.05]),
       (("65+", "mid_tier"), [0.40, 0.45, 0.15]),
       (("65+", "luxury"), [0.20, 0.40, 0.40])],
    brand_loyalty_by_life_stage :=
      [("student", [0.60, 0.30, 0.10]),
       ("young_professional", [0.45, 0.40, 0.15]),
       ("parent", [0.25, 0.45, 0.30]),
       ("empty_nester", [0.30, 0.40, 0.30]),
       ("retiree", [0.20, 0.35, 0.45])],
    channel_by_locality :=
      [("metro", [0.45, 0.15, 0.40]),
       ("suburban", [0.35, 0.25, 0.40]),
       ("regional", [0.25, 0.45, 0.30])],
    engagement_behaviors := ["passive", "browser", "researcher", "active_buyer"],
    price_sensitivities := ["price_conscious", "value_seeker", "premium_buyer"],
    product_interests := ["electronics", "fashion", "home_garden", "health_beauty",
                          "books_media", "sports_outdoors"] }

/-- The ip_ranges table defined inline in generate_enhanced_dataset. -/
def ipRanges : List (String × List String) :=
  [("Australia", ["1.0.0", "14.0.0"]), ("Japan", ["126.0.0", "133.0.0"]),
   ("South Korea", ["1.201.0", "14.32.0"]), ("China", ["1.2.0", "14.144.0"]),
   ("India", ["1.23.0", "14.96.0"]), ("Singapore", ["8.20.0", "103.10.0"]),
   ("Thailand", ["1.46.0", "14.207.0"]), ("Malaysia", ["1.9.0", "14.102.0"])]

def dayNames : List String :=
  ["Monday", "Tuesday", "Wednesday", "Thursday", "Friday", "Saturday", "Sunday"]

/-! ## Raw-draw bundles and intermediate results -/

structure GeoDraws where
  countryU : Rat
  cityN : Nat
  stateN : Nat
  localityU : Rat

structure GeoResult where
  country : String
  state : String
  city : String
  timezone : String
  locality_type : String

structure DeviceDraws where
  deviceU : Rat
  browserN : Nat
  osN : Nat
  resN : Nat
  vpN : Nat

structure DeviceResult where
  device_type : String
  browser : String
  operating_system : String
  screen_resolution : String
  viewport_size : String

structure EmailDraws where
  domainN : Nat
  firstName : String
  lastName : String
  sufN : Nat
  yearN : Nat
  patternN : Nat

structure AgeDraws where
  bandU : Rat
  ageN : Nat
  dobOffsetN : Nat

structure AgeResult where
  dob : Nat
  age : Nat
  age_band : String

structure SessionDraws where
  bounceU : Rat
  bounceDurN : Nat
  gammaD : Rat
  poissonN : Nat
  scrollN : Nat
  clickN : Nat

structure SessionResult where
  duration : Rat
  page_views : Nat
  is_bounce : Bool
  avg_time_per_page : Rat
  scroll_depth : Nat
  click_count : Nat

structure UtmDraws where
  branchU : Rat
  srcN : Nat
  medN : Nat
  campN : Nat

structure UtmResult where
  utm_source : String
  utm_medium : String
  utm_campaign : Option String

structure ScoreDraws where
  engZ : Int
  churnB : Rat
  convB : Rat

structure ScoresResult where
  engagement_score : Int
  churn_score : Rat
  conversion_propensity : Rat

structure PurchaseDraws where
  freqU : Rat
  valueU : Rat
  loyaltyU : Rat
  channelU : Rat

structure PurchaseResult where
  purchase_frequency : String
  purchase_value : String
  brand_loyalty : String
  shopping_channel : String

structure TraitDraws where
  priceU : Rat
  interestN : Nat

structure TraitsResult where
  engagement_behavior : String
  price_sensitivity : String
  product_interest : String

structure EventDraws where
  pageN : Nat → Nat
  ts : Nat → String
  durN : Nat → Nat

structure PageEvent where
  page : String
  timestamp : String
  duration_seconds : Nat
deriving DecidableEq

/-- The entropy uuid.uuid4() pulls from the operating system for anon_id and
session_id; the hex processing str(uuid4()).replace and upper-casing is
absorbed into the opaque string.  uuid4 does NOT read the seeded PRNGs. -/
structure UuidSrc where
  anonPart : String
  sessPart : String

/-! ## Generator methods (EnhancedKnownGenerator._generate_*) -/

/-- _generate_geo_data: weighted country draw (numpy normalizes the weights
by their sum), uniform city/state draws, timezone from the country record,
locality from the per-city mapping with a weighted fallback draw. -/
def generateGeoData (cfg : Config) (d : GeoDraws) : Except String GeoResult := do
  let weights := cfg.apj_countries.map (fun c => (c.2.weight : Rat))
  let country ← npChoice (cfg.apj_countries.map Prod.fst)
    (weights.map (fun w => w / sumList weights)) d.countryU
  match assocLookup cfg.apj_countries country with
  | none => .error "KeyError: country"
  | some countryData => do
    let city ← pyChoice countryData.cities d.cityN
    let state ← pyChoice countryData.states d.stateN
    let localityType ←
      (match assocLookup countryData.city_types city with
       | some lt => Except.ok lt
       | none => npChoice cfg.locality_types cfg.locality_weights d.localityU)
    pure { country := country, state := state, city := city,
           timezone := countryData.timezone, locality_type := localityType }

/-- _generate_device_data. -/
def generateDeviceData (cfg : Config) (d : DeviceDraws) : Except String DeviceResult := do
  let deviceType ← npChoice ["mobile", "desktop", "tablet"] [0.65, 0.25, 0.10] d.deviceU
  match assocLookup cfg.devices deviceType with
  | none => .error "KeyError: device"
  | some deviceInfo => do
    let browser ← pyChoice deviceInfo.browsers d.browserN
    let osName ← pyChoice deviceInfo.os d.osN
    if deviceType = "mobile" then
      let sr := choiceD ["375x667", "414x896", "360x640", "393x851", "428x926"] d.resN
      pure { device_type := deviceType, browser := browser, operating_system := osName,
             screen_resolution := sr, viewport_size := sr }
    else if deviceType = "desktop" then
      let sr := choiceD ["1920x1080", "1366x768", "1536x864", "2560x1440", "1440x900"] d.resN
      let vp := choiceD ["1200x800", "1366x768", "1536x864", "1920x1080"] d.vpN
      pure { device_type := deviceType, browser := browser, operating_system := osName,
             screen_resolution := sr, viewport_size := vp }
    else
      let sr := choiceD ["768x1024", "1024x768", "820x1180", "810x1080"] d.resN
      pure { device_type := deviceType, browser := browser, operating_system := osName,
             screen_resolution := sr, viewport_size := sr }

/-- _generate_customer_id: the Faker date string is an input; the random
6-digit part is randint(100000, 999999) (already 6 digits, so the 06d padding
is the identity). -/
def generateCustomerId (datePart : String) (n : Nat) : String :=
  "CUST_" ++ datePart ++ "_" ++ toString (pyRandint 100000 999999 n)

/-- Keep only codepoints below 128, as the email username filter does. -/
def asciiOnly (s : String) : String :=
  String.mk (s.data.filter (fun c => decide (c.toNat < 128)))

/-- _generate_email: the Faker first/last names arrive already lower-cased as
draw inputs.  Python builds all six patterns (evaluating both randint calls)
before choosing one. -/
def generateEmail (cfg : Config) (country : String) (d : EmailDraws) :
    Except String String := do
  let domains := (assocLookup cfg.email_domains country).getD
    ["gmail.com", "yahoo.com", "outlook.com"]
  let domain ← pyChoice domains d.domainN
  let fn := d.firstName
  let ln := d.lastName
  let patterns :=
    [fn ++ "." ++ ln,
     fn ++ ln,
     fn ++ "." ++ ln ++ toString (pyRandint 1 99 d.sufN),
     fn.take 1 ++ "." ++ ln,
     fn ++ "." ++ ln.take 1,
     fn ++ toString (pyRandint 1980 2005 d.yearN)]
  let username := choiceD patterns d.patternN
  pure (asciiOnly username ++ "@" ++ domain)

/-- _generate_phone_number: pattern lookup with default then per-country
digit-group shapes; the padded formats are identities on the randint ranges. -/
def generatePhoneNumber (country : String) (a b c : Nat) : String :=
  if country = "Australia" then
    "+61 4" ++ toString (pyRandint 10 99 a) ++ " " ++
      toString (pyRandint 100 999 b) ++ " " ++ toString (pyRandint 100 999 c)
  else if country = "Japan" then
    "+81 90 " ++ toString (pyRandint 1000 9999 a) ++ " " ++ toString (pyRandint 1000 9999 b)
  else if country = "South Korea" then
    "+82 10 " ++ toString (pyRandint 1000 9999 a) ++ " " ++ toString (pyRandint 1000 9999 b)
  else if country = "Singapore" then
    "+65 9" ++ toString (pyRandint 1000 9999 a) ++ " " ++ toString (pyRandint 1000 9999 b)
  else if country = "China" then
    "+86 138 " ++ toString (pyRandint 1000 9999 a) ++ " " ++ toString (pyRandint 1000 9999 b)
  else if country = "Thailand" then
    "+66 8" ++ toString (pyRandint 10 99 a) ++ " " ++ toString (pyRandint 1000 9999 b)
  else if country = "Malaysia" then
    "+60 12 " ++ toString (pyRandint 10 99 a) ++ " " ++ toString (pyRandint 1000 9999 b)
  else if country = "India" then
    "+91 98" ++ toString (pyRandint 10 99 a) ++ " " ++
      toString (pyRandint 100 999 b) ++ " " ++ toString (pyRandint 100 999 c)
  else
    "+1 555 " ++ toString (pyRandint 100 999 a) ++ " " ++ toString (pyRandint 1000 9999 b)

/-- _generate_age_and_band: weighted band-index draw, uniform age inside the
band, dob = today - (age*365 + randint(0,364)) days, with the clock modelled
as a day number. -/
def generateAgeAndBand (cfg : Config) (today : Nat) (d : AgeDraws) :
    Except String AgeResult := do
  let bandIdx ← npChoice (List.range cfg.age_bands.length) cfg.age_band_weights d.bandU
  match cfg.age_bands.get? bandIdx with
  | none => .error "IndexError: age band"
  | some band =>
    let age := pyRandint band.1 band.2.1 d.ageN
    pure { dob := today - (age * 365 + pyRandint 0 364 d.dobOffsetN),
           age := age, age_band := band.2.2 }

/-- _generate_income_level: dict lookup by age band (KeyError when absent),
then a conditional categorical draw. -/
def generateIncomeLevel (cfg : Config) (ageBand : String) (u : Rat) :
    Except String String :=
  match assocLookup cfg.income_probabilities ageBand with
  | none => .error "KeyError: age_band not in income_probabilities"
  | some probabilities => npChoice cfg.income_levels probabilities u

/-- _generate_life_stage. -/
def generateLifeStage (cfg : Config) (ageBand : String) (u : Rat) :
    Except String String :=
  match assocLookup cfg.life_stage_probabilities ageBand with
  | none => .error "KeyError: age_band not in life_stage_probabilities"
  | some probabilities => npChoice cfg.life_stages probabilities u

/-- _generate_session_data: 15% bounce branch with randint(15,60) duration and
one page view; otherwise a Gamma-distributed duration (raw draw gammaD)
clipped into [45, 4800] and a Poisson page-view count floored at 2. -/
def generateSessionData (d : SessionDraws) : SessionResult :=
  let branch : Rat × Nat × Bool :=
    if d.bounceU < 0.15 then (((pyRandint 15 60 d.bounceDurN : Nat) : Rat), 1, true)
    else (max 45 (min d.gammaD 4800), max 2 d.poissonN, false)
  let duration := branch.1
  let pageViews := branch.2.1
  let isBounce := branch.2.2
  { duration := duration
    page_views := pageViews
    is_bounce := isBounce
    avg_time_per_page := if 0 < pageViews then duration / (pageViews : Rat) else duration
    scroll_depth := if isBounce = false then pyRandint 35 100 d.scrollN else pyRandint 15 50 d.scrollN
    click_count := if isBounce = true then pyRandint 1 3 d.clickN else pyRandint 3 20 d.clickN }

/-- _generate_utm_data. -/
def generateUtmData (cfg : Config) (d : UtmDraws) : Except String UtmResult := do
  if d.branchU < 0.3 then
    let src := choiceD ["direct", "organic"] d.srcN
    pure { utm_source := src,
           utm_medium := if src = "organic" then "organic" else "direct",
           utm_campaign := none }
  else
    let src ← pyChoice cfg.utm_sources d.srcN
    let med ← pyChoice cfg.utm_mediums d.medN
    let camp := choiceD ["customer_retention", "loyalty_program", "new_product_launch",
                         "personalized_offer", "winback_campaign"] d.campN
    pure { utm_source := src, utm_medium := med, utm_campaign := some camp }

/-- _generate_engagement_scores: engZ models int(np.random.normal(65, 18))
(any integer); churnB and convB model the Beta(1.5, 6) and Beta(4, 6) draws,
whose support is [0, 1].  None of them reads any other field. -/
def generateEngagementScores (d : ScoreDraws) : ScoresResult :=
  { engagement_score := max 0 (min 100 d.engZ)
    churn_score := pyRound 3 d.churnB
    conversion_propensity := pyRound 3 d.convB }

/-- Lines 410-415 of _generate_purchase_behavior: the (age_band, income_level)
membership test on purchase_value_matrix, with the fixed default vector when
the pair is absent. -/
def purchaseValueProbs (cfg : Config) (ageBand incomeLevel : String) : List Rat :=
  match assocLookup cfg.purchase_value_matrix (ageBand, incomeLevel) with
  | some valueProbs => valueProbs
  | none => [0.50, 0.35, 0.15]

/-- _generate_purchase_behavior: four conditional categorical draws; only the
purchase_value lookup has a fallback, the other three dict lookups raise
KeyError when the key is absent. -/
def generatePurchaseBehavior (cfg : Config)
    (ageBand incomeLevel lifeStage localityType : String) (d : PurchaseDraws) :
    Except String PurchaseResult := do
  let freqProbs ←
    (match assocLookup cfg.purchase_freq_by_income incomeLevel with
     | some v => Except.ok v
     | none => Except.error "KeyError: income_level not in purchase_freq_by_income")
  let purchaseFrequency ← npChoice cfg.purchase_frequencies freqProbs d.freqU
  let purchaseValue ← npChoice cfg.purchase_values
    (purchaseValueProbs cfg ageBand incomeLevel) d.valueU
  let loyaltyProbs ←
    (match assocLookup cfg.brand_loyalty_by_life_stage lifeStage with
     | some v => Except.ok v
     | none => Except.error "KeyError: life_stage not in brand_loyalty_by_life_stage")
  let brandLoyalty ← npChoice cfg.brand_loyalties loyaltyProbs d.loyaltyU
  let channelProbs ←
    (match assocLookup cfg.channel_by_locality localityType with
     | some v => Except.ok v
     | none => Except.error "KeyError: locality_type not in channel_by_locality")
  let shoppingChannel ← npChoice cfg.shopping_channels channelProbs d.channelU
  pure { purchase_frequency := purchaseFrequency, purchase_value := purchaseValue,
         brand_loyalty := brandLoyalty, shopping_channel := shoppingChannel }

/-- _generate_behavioral_traits: engagement behavior is a threshold function;
price sensitivity is a weighted draw keyed on income level; product interest
is a uniform np.random.choice over a life-stage-specific literal list. -/
def generateBehavioralTraits (cfg : Config) (engagementScore : Int)
    (incomeLevel ageBand lifeStage : String) (d : TraitDraws) :
    Except String TraitsResult := do
  let engagementBehavior :=
    if 80 ≤ engagementScore then "active_buyer"
    else if 60 ≤ engagementScore then "researcher"
    else if 40 ≤ engagementScore then "browser"
    else "passive"
  let priceSensitivity ←
    if incomeLevel = "luxury" then
      npChoice cfg.price_sensitivities [0.15, 0.35, 0.50] d.priceU
    else if incomeLevel = "mid_tier" then
      npChoice cfg.price_sensitivities [0.30, 0.50, 0.20] d.priceU
    else
      npChoice cfg.price_sensitivities [0.70, 0.25, 0.05] d.priceU
  let productInterest :=
    if lifeStage = "student" then
      choiceD ["electronics", "fashion", "books_media"] d.interestN
    else if lifeStage = "young_professional" then
      choiceD ["electronics", "fashion", "health_beauty"] d.interestN
    else if lifeStage = "parent" then
      choiceD ["home_garden", "health_beauty", "electronics"] d.interestN
    else if lifeStage = "empty_nester" then
      choiceD ["home_garden", "health_beauty", "sports_outdoors"] d.interestN
    else
      choiceD ["home_garden", "health_beauty", "books_media"] d.interestN
  let _ := ageBand
  pure { engagement_behavior := engagementBehavior,
         price_sensitivity := priceSensitivity, product_interest := productInterest }

/-- _generate_event_sequence: one event per page view; the first page comes
from the entry-point list, later ones from the full page-type list.  The
events are kept as a structured list rather than a JSON string. -/
def generateEventSequence (pageViews : Nat) (_clickCount : Nat) (d : EventDraws) :
    List PageEvent :=
  (List.range pageViews).map (fun i =>
    { page :=
        if i = 0 then choiceD ["homepage", "account", "product"] (d.pageN i)
        else choiceD ["homepage", "product", "category", "search", "cart", "checkout",
                      "account", "help", "about", "profile", "orders", "wishlist"] (d.pageN i)
      timestamp := d.ts i
      duration_seconds := pyRandint 15 450 (d.durN i) })

/-! ## Segment derivation (generate_enhanced_dataset lines 508-525)

The Python code is a bare `if` statement followed by a separate
if/elif/.../else statement, both assigning to the same variable.  The two
statements are modelled as two sequential state transformers on the
optional local variable `segment`. -/

/-- First statement: `if is_bounce and engagement_score < 30: segment = ...`. -/
def segmentFirstStep (isBounce : Bool) (engagementScore : Int)
    (s : Option String) : Option String :=
  if isBounce = true ∧ engagementScore < 30 then some "low-engagement" else s

/-- The label the second statement's if/elif/.../else ladder picks (first
matching branch wins; the trailing else makes it total). -/
def segmentChain (engagementScore : Int) (conversionPropensity churnScore : Rat)
    (eventCount : Nat) : String :=
  if 85 < engagementScore ∧ 0.7 < conversionPropensity then "vip"
  else if 70 < engagementScore then "high-engagement"
  else if 0.7 < churnScore then "at-risk"
  else if 10 < eventCount then "loyal"
  else if 50 < engagementScore then "medium-engagement"
  else if eventCount < 3 then "new-visitor"
  else if churnScore < 0.3 ∧ 40 < engagementScore then "re-engaged"
  else "returning"

/-- Second statement: an if/elif/.../else that assigns in every branch, so as
a state transformer it ignores the incoming value of `segment`. -/
def segmentSecondStep (engagementScore : Int) (conversionPropensity churnScore : Rat)
    (eventCount : Nat) (_s : Option String) : Option String :=
  some (segmentChain engagementScore conversionPropensity churnScore eventCount)

/-- The value of `segment` after both statements have run. -/
def segmentValue (isBounce : Bool) (engagementScore : Int)
    (conversionPropensity churnScore : Rat) (eventCount : Nat) : String :=
  match segmentSecondStep engagementScore conversionPropensity churnScore eventCount
      (segmentFirstStep isBounce engagementScore none) with
  | some s => s
  | none => "UnboundLocalError"

/-! ## The record and its assembly (generate_enhanced_dataset) -/

/-- One generated record (the dict built at lines 526-584).  dob is carried
as a day number, last_event_date and the event timestamps as opaque Faker
strings, and event_sequence_json as a structured list.  The ten known-only
fields the spec's anonymous variant nulls out are Option-typed; the known
generator always populates them. -/
structure CustomerRecord where
  customer_id : String
  known_flag : Bool
  anon_id : String
  email : Option String
  phone_number : Option String
  dob : Option Nat
  age : Option Nat
  age_band : String
  income_level : Option String
  life_stage : Option String
  locality_type : String
  purchase_frequency : Option String
  purchase_value : Option String
  brand_loyalty : Option String
  shopping_channel : Option String
  engagement_behavior : String
  price_sensitivity : String
  product_interest : String
  geo_country : String
  geo_state : String
  geo_city : String
  ip_address : String
  device_type : String
  event_count : Nat
  last_event_date : String
  segment : String
  session_id : String
  session_duration_seconds : Int
  page_views : Nat
  is_bounce_session : Bool
  avg_time_per_page_seconds : Rat
  scroll_depth_percent : Nat
  click_count : Nat
  browser_name : String
  operating_system : String
  screen_resolution : String
  viewport_size : String
  timezone : String
  utm_source : String
  utm_medium : String
  utm_campaign : Option String
  engagement_score : Int
  churn_risk_score : Rat
  conversion_propensity : Rat
  event_sequence : List PageEvent
  landing_page : String
  referrer_domain : Option String
  local_visit_hour : Nat
  day_of_week : String
  is_weekend : Bool

/-- All randomness one loop iteration of generate_enhanced_dataset consumes
from the seedable sources (random, numpy.random and the Faker strings whose
values the seeded Faker instance produces). -/
structure RecordDraws where
  geo : GeoDraws
  device : DeviceDraws
  custDatePart : String
  custIdN : Nat
  emailD : EmailDraws
  phoneA : Nat
  phoneB : Nat
  phoneC : Nat
  ageD : AgeDraws
  incomeU : Rat
  lifeU : Rat
  session : SessionDraws
  utm : UtmDraws
  scores : ScoreDraws
  purchase : PurchaseDraws
  traits : TraitDraws
  ecN : Nat
  lastEventDate : String
  events : EventDraws
  ipBaseN : Nat
  ipLastN : Nat
  landingN : Nat
  hourN : Nat
  dayN : Nat
  weekendN : Nat

/-- The record dict of lines 526-584, assembled from the upstream draws and
results.  The session tuple, scores, event count, event sequence, ip address
and all trailing inline draws are computed here exactly as in the loop body. -/
def assembleRecord (d : RecordDraws) (geo : GeoResult) (dev : DeviceResult)
    (email : String) (ageR : AgeResult) (incomeLevel lifeStage : String)
    (utm : UtmResult) (pur : PurchaseResult) (traits : TraitsResult) :
    CustomerRecord :=
  let sess := generateSessionData d.session
  let scores := generateEngagementScores d.scores
  let eventCount := max 2 (sess.page_views + pyRandint 1 8 d.ecN)
  let eventSeq := generateEventSequence sess.page_views sess.click_count d.events
  let ipBase := choiceD ((assocLookup ipRanges geo.country).getD ["192.168.0"]) d.ipBaseN
  { customer_id := generateCustomerId d.custDatePart d.custIdN
    known_flag := true
    anon_id := ""
    email := some email
    phone_number := some (generatePhoneNumber geo.country d.phoneA d.phoneB d.phoneC)
    dob := some ageR.dob
    age := some ageR.age
    age_band := ageR.age_band
    income_level := some incomeLevel
    life_stage := some lifeStage
    locality_type := geo.locality_type
    purchase_frequency := some pur.purchase_frequency
    purchase_value := some pur.purchase_value
    brand_loyalty := some pur.brand_loyalty
    shopping_channel := some pur.shopping_channel
    engagement_behavior := traits.engagement_behavior
    price_sensitivity := traits.price_sensitivity
    product_interest := traits.product_interest
    geo_country := geo.country
    geo_state := geo.state
    geo_city := geo.city
    ip_address := ipBase ++ "." ++ toString (pyRandint 1 254 d.ipLastN)
    device_type := dev.device_type
    event_count := eventCount
    last_event_date := d.lastEventDate
    segment := segmentValue sess.is_bounce scores.engagement_score
      scores.conversion_propensity scores.churn_score eventCount
    session_id := ""
    session_duration_seconds := Int.floor sess.duration
    page_views := sess.page_views
    is_bounce_session := sess.is_bounce
    avg_time_per_page_seconds := pyRound 1 sess.avg_time_per_page
    scroll_depth_percent := sess.scroll_depth
    click_count := sess.click_count
    browser_name := dev.browser
    operating_system := dev.operating_system
    screen_resolution := dev.screen_resolution
    viewport_size := dev.viewport_size
    timezone := geo.timezone
    utm_source := utm.utm_source
    utm_medium := utm.utm_medium
    utm_campaign := utm.utm_campaign
    engagement_score := scores.engagement_score
    churn_risk_score := scores.churn_score
    conversion_propensity := scores.conversion_propensity
    event_sequence := eventSeq
    landing_page := choiceD ["homepage", "product", "account", "category"] d.landingN
    referrer_domain :=
      if utm.utm_source ∈ (["direct", "organic"] : List String) then none
      else some utm.utm_source
    local_visit_hour := pyRandint 7 22 d.hourN
    day_of_week := choiceD dayNames d.dayN
    is_weekend := decide (choiceD dayNames d.weekendN ∈ (["Saturday", "Sunday"] : List String)) }

/-- One iteration of the generation loop, up to the two uuid4-derived fields
(anon_id and session_id hold placeholders here; see generateRecord): the
chained fallible draws in the order the loop body runs them, with the
assembly of the record factored into assembleRecord. -/
def generateRecordAux (cfg : Config) (today : Nat) (d : RecordDraws) :
    Except String CustomerRecord := do
  let geo ← generateGeoData cfg d.geo
  let dev ← generateDeviceData cfg d.device
  let email ← generateEmail cfg geo.country d.emailD
  let ageR ← generateAgeAndBand cfg today d.ageD
  let incomeLevel ← generateIncomeLevel cfg ageR.age_band d.incomeU
  let lifeStage ← generateLifeStage cfg ageR.age_band d.lifeU
  let utm ← generateUtmData cfg d.utm
  let pur ← generatePurchaseBehavior cfg ageR.age_band incomeLevel lifeStage
    geo.locality_type d.purchase
  let traits ← generateBehavioralTraits cfg
    (generateEngagementScores d.scores).engagement_score incomeLevel
    ageR.age_band lifeStage d.traits
  pure (assembleRecord d geo dev email ageR incomeLevel lifeStage utm pur traits)

/-- One full loop iteration.  The two uuid4 calls read OS entropy (UuidSrc),
not the seeded PRNGs, and feed exactly the anon_id and session_id fields, so
the assembly factors as the seeded part followed by those two updates. -/
def generateRecord (cfg : Config) (today : Nat) (d : RecordDraws) (u : UuidSrc) :
    Except String CustomerRecord :=
  (generateRecordAux cfg today d).map (fun r =>
    { r with anon_id := "KNOWN_" ++ u.anonPart, session_id := "SESS_" ++ u.sessPart })

/-- Modelled from the spec: the repository's anonymous-variant sampler (the
code that produced the enhanced_anonymous_360 table which
validate_enhanced_data.py reads) is not under src/; only the known-mode
generator is.  Per spec section 4 (operation sample_record, step 9 and the
mode flag), the sampler takes a boolean known-vs-anonymous flag, shares the
geographic/device/session/score logic, and in anonymous mode leaves the
identity and demographic known-only fields absent/null with known_flag
false. -/
def sampleRecordModed (known : Bool) (cfg : Config) (today : Nat)
    (d : RecordDraws) (u : UuidSrc) : Except String CustomerRecord :=
  if known then generateRecord cfg today d u
  else (generateRecord cfg today d u).map (fun r =>
    { r with known_flag := false, email := none, phone_number := none,
             dob := none, age := none, income_level := none, life_stage := none,
             purchase_frequency := none, purchase_value := none,
             brand_loyalty := none, shopping_channel := none })

/-! ## Inversion and membership lemmas -/

theorem assocLookup_mem_pair {α β : Type} [DecidableEq α] :
    ∀ (l : List (α × β)) (k : α) (v : β),
      assocLookup l k = some v → (k, v) ∈ l
  | [], _, _, h => by simp [assocLookup] at h
  | (k', v') :: rest, k, v, h => by
    by_cases hk : k = k'
    · simp [assocLookup, hk] at h
      simp [hk, h]
    · simp only [assocLookup, if_neg hk] at h
      exact List.mem_cons_of_mem _ (assocLookup_mem_pair rest k v h)

theorem generateRecordAux_ok {cfg : Config} {today : Nat} {d : RecordDraws}
    {r : CustomerRecord} (h : generateRecordAux cfg today d = .ok r) :
    ∃ geo dev email ageR incomeLevel lifeStage utm pur traits,
      generateGeoData cfg d.geo = .ok geo ∧
      generateDeviceData cfg d.device = .ok dev ∧
      generateEmail cfg geo.country d.emailD = .ok email ∧
      generateAgeAndBand cfg today d.ageD = .ok ageR ∧
      generateIncomeLevel cfg ageR.age_band d.incomeU = .ok incomeLevel ∧
      generateLifeStage cfg ageR.age_band d.lifeU = .ok lifeStage ∧
      generateUtmData cfg d.utm = .ok utm ∧
      generatePurchaseBehavior cfg ageR.age_band incomeLevel lifeStage
        geo.locality_type d.purchase = .ok pur ∧
      generateBehavioralTraits cfg
        (generateEngagementScores d.scores).engagement_score incomeLevel
        ageR.age_band lifeStage d.traits = .ok traits ∧
      r = assembleRecord d geo dev email ageR incomeLevel lifeStage utm pur traits := by
  unfold generateRecordAux at h
  obtain ⟨geo, hgeo, h⟩ := bind_ok_inv h
  obtain ⟨dev, hdev, h⟩ := bind_ok_inv h
  obtain ⟨email, hemail, h⟩ := bind_ok_inv h
  obtain ⟨ageR, hage, h⟩ := bind_ok_inv h
  obtain ⟨incomeLevel, hinc, h⟩ := bind_ok_inv h
  obtain ⟨lifeStage, hlife, h⟩ := bind_ok_inv h
  obtain ⟨utm, hutm, h⟩ := bind_ok_inv h
  obtain ⟨pur, hpur, h⟩ := bind_ok_inv h
  obtain ⟨traits, htraits, h⟩ := bind_ok_inv h
  exact ⟨geo, dev, email, ageR, incomeLevel, lifeStage, utm, pur, traits,
    hgeo, hdev, hemail, hage, hinc, hlife, hutm, hpur, htraits,
    (Except.ok.inj h).symm⟩

theorem generateRecord_ok {cfg : Config} {today : Nat} {d : RecordDraws}
    {u : UuidSrc} {r : CustomerRecord} (h : generateRecord cfg today d u = .ok r) :
    ∃ r0, generateRecordAux cfg today d = .ok r0 ∧
      r = { r0 with anon_id := "KNOWN_" ++ u.anonPart,
                    session_id := "SESS_" ++ u.sessPart } := by
  unfold generateRecord at h
  cases hx : generateRecordAux cfg today d with
  | error e => rw [hx] at h; simp [Except.map] at h
  | ok r0 =>
    rw [hx] at h
    simp only [Except.map] at h
    exact ⟨r0, rfl, (Except.ok.inj h).symm⟩

theorem generateDeviceData_ok_mem {cfg : Config} {d : DeviceDraws}
    {dev : DeviceResult} (h : generateDeviceData cfg d = .ok dev) :
    dev.device_type ∈ (["mobile", "desktop", "tablet"] : List String) := by
  unfold generateDeviceData at h
  obtain ⟨dt, hdt, h⟩ := bind_ok_inv h
  have hmem := npChoice_ok_mem hdt
  cases hl : assocLookup cfg.devices dt with
  | none => rw [hl] at h; exact absurd h (by simp)
  | some di =>
    rw [hl] at h
    obtain ⟨br, hbr, h⟩ := bind_ok_inv h
    obtain ⟨osn, hos, h⟩ := bind_ok_inv h
    by_cases h1 : dt = "mobile"
    · rw [if_pos h1] at h
      have hr := (Except.ok.inj h).symm
      subst hr
      simpa using hmem
    · rw [if_neg h1] at h
      by_cases h2 : dt = "desktop"
      · rw [if_pos h2] at h
        have hr := (Except.ok.inj h).symm
        subst hr
        simpa using hmem
      · rw [if_neg h2] at h
        have hr := (Except.ok.inj h).symm
        subst hr
        simpa using hmem

theorem generateIncomeLevel_ok_mem {cfg : Config} {ab : String} {u : Rat}
    {v : String} (h : generateIncomeLevel cfg ab u = .ok v) :
    v ∈ cfg.income_levels := by
  unfold generateIncomeLevel at h
  cases hl : assocLookup cfg.income_probabilities ab with
  | none => rw [hl] at h; exact absurd h (by simp)
  | some probs => rw [hl] at h; exact npChoice_ok_mem h

theorem generateLifeStage_ok_mem {cfg : Config} {ab : String} {u : Rat}
    {v : String} (h : generateLifeStage cfg ab u = .ok v) :
    v ∈ cfg.life_stages := by
  unfold generateLifeStage at h
  cases hl : assocLookup cfg.life_stage_probabilities ab with
  | none => rw [hl] at h; exact absurd h (by simp)
  | some probs => rw [hl] at h; exact npChoice_ok_mem h

theorem generatePurchaseBehavior_ok_mem {cfg : Config} {ab il ls lt : String}
    {d : PurchaseDraws} {pur : PurchaseResult}
    (h : generatePurchaseBehavior cfg ab il ls lt d = .ok pur) :
    pur.purchase_frequency ∈ cfg.purchase_frequencies ∧
    pur.purchase_value ∈ cfg.purchase_values ∧
    pur.brand_loyalty ∈ cfg.brand_loyalties ∧
    pur.shopping_channel ∈ cfg.shopping_channels := by
  unfold generatePurchaseBehavior at h
  obtain ⟨fp, hfp, h⟩ := bind_ok_inv h
  obtain ⟨pf, hpf, h⟩ := bind_ok_inv h
  obtain ⟨pv, hpv, h⟩ := bind_ok_inv h
  obtain ⟨lp, hlp, h⟩ := bind_ok_inv h
  obtain ⟨bl, hbl, h⟩ := bind_ok_inv h
  obtain ⟨cp, hcp, h⟩ := bind_ok_inv h
  obtain ⟨sc, hsc, h⟩ := bind_ok_inv h
  have hr := (Except.ok.inj h).symm
  subst hr
  exact ⟨npChoice_ok_mem hpf, npChoice_ok_mem hpv,
    npChoice_ok_mem hbl, npChoice_ok_mem hsc⟩

theorem segmentChain_mem (e : Int) (cv ch : Rat) (ec : Nat) :
    segmentChain e cv ch ec ∈
      (["vip", "high-engagement", "at-risk", "loyal", "medium-engagement",
        "new-visitor", "re-engaged", "returning"] : List String) := by
  unfold segmentChain
  split_ifs <;> simp

theorem segmentChain_ne_low (e : Int) (cv ch : Rat) (ec : Nat) :
    segmentChain e cv ch ec ≠ "low-engagement" := by
  unfold segmentChain
  split_ifs <;> decide

/-- Every city listed in any country's cities list of the built-in
configuration is mapped to locality type metro by that country's city_types
table. -/
theorem builtin_city_types_metro :
    ∀ p ∈ builtinConfig.apj_countries, ∀ city ∈ p.2.cities,
      assocLookup p.2.city_types city = some "metro" := by decide

theorem generateGeoData_builtin_metro {d : GeoDraws} {g : GeoResult}
    (h : generateGeoData builtinConfig d = .ok g) : g.locality_type = "metro" := by
  unfold generateGeoData at h
  obtain ⟨c, hc, h⟩ := bind_ok_inv h
  cases hl : assocLookup builtinConfig.apj_countries c with
  | none => rw [hl] at h; exact absurd h (by simp)
  | some cd =>
    rw [hl] at h
    obtain ⟨city, hcity, h⟩ := bind_ok_inv h
    obtain ⟨st, hst, h⟩ := bind_ok_inv h
    have hmetro : assocLookup cd.city_types city = some "metro" :=
      builtin_city_types_metro (c, cd) (assocLookup_mem_pair _ _ _ hl)
        city (pyChoice_ok_mem hcity)
    obtain ⟨lt, hlt, h⟩ := bind_ok_inv h
    rw [hmetro] at hlt
    have hltm : lt = "metro" := (Except.ok.inj hlt).symm
    have hr := (Except.ok.inj h).symm
    subst hr
    simpa using hltm

theorem generateSessionData_bounce {d : SessionDraws} (hb : d.bounceU < 0.15) :
    generateSessionData d =
      { duration := ((pyRandint 15 60 d.bounceDurN : Nat) : Rat)
        page_views := 1
        is_bounce := true
        avg_time_per_page := ((pyRandint 15 60 d.bounceDurN : Nat) : Rat) / 1
        scroll_depth := pyRandint 15 50 d.scrollN
        click_count := pyRandint 1 3 d.clickN } := by
  unfold generateSessionData
  rw [if_pos hb]
  simp

theorem generateSessionData_nonbounce {d : SessionDraws} (hb : ¬ d.bounceU < 0.15) :
    generateSessionData d =
      { duration := max 45 (min d.gammaD 4800)
        page_views := max 2 d.poissonN
        is_bounce := false
        avg_time_per_page := max 45 (min d.gammaD 4800) / ((max 2 d.poissonN : Nat) : Rat)
        scroll_depth := pyRandint 35 100 d.scrollN
        click_count := pyRandint 3 20 d.clickN } := by
  unfold generateSessionData
  rw [if_neg hb]
  have hpv : 0 < max 2 d.poissonN :=
    Nat.lt_of_lt_of_le Nat.zero_lt_two (Nat.le_max_left 2 d.poissonN)
  simp [hpv]

def drawsBase : RecordDraws :=
  { geo := { countryU := 0, cityN := 0, stateN := 0, localityU := 0 }
    device := { deviceU := 0, browserN := 0, osN := 0, resN := 0, vpN := 0 }
    custDatePart := "20240101"
    custIdN := 0
    emailD := { domainN := 0, firstName := "li", lastName := "na", sufN := 0,
                yearN := 0, patternN := 0 }
    phoneA := 0, phoneB := 0, phoneC := 0
    ageD := { bandU := 0, ageN := 0, dobOffsetN := 0 }
    incomeU := 0, lifeU := 0
    session := { bounceU := 0, bounceDurN := 0, gammaD := 0, poissonN := 0,
                 scrollN := 0, clickN := 0 }
    utm := { branchU := 0, srcN := 0, medN := 0, campN := 0 }
    scores := { engZ := 10, churnB := 0, convB := 0 }
    purchase := { freqU := 0, valueU := 0, loyaltyU := 0, channelU := 0 }
    traits := { priceU := 0, interestN := 0 }
    ecN := 0
    lastEventDate := "2024-06-01T00:00:00"
    events := { pageN := fun _ => 0, ts := fun _ => "2024-06-01T00:00:00",
                durN := fun _ => 0 }
    ipBaseN := 0, ipLastN := 0
    landingN := 0, hourN := 0, dayN := 0, weekendN := 0 }

def uuidA : UuidSrc := { anonPart := "AAAA1111BBBB", sessPart := "EEEE0000FFFF" }

def uuidB : UuidSrc := { anonPart := "CCCC2222DDDD", sessPart := "9999888877AA" }

theorem generateRecord_fields {cfg : Config} {today : Nat} {d : RecordDraws}
    {u : UuidSrc} {r : CustomerRecord} (h : generateRecord cfg today d u = .ok r) :
    r.is_bounce_session = (generateSessionData d.session).is_bounce ∧
    r.page_views = (generateSessionData d.session).page_views ∧
    r.engagement_score = (generateEngagementScores d.scores).engagement_score ∧
    r.churn_risk_score = (generateEngagementScores d.scores).churn_score ∧
    r.conversion_propensity = (generateEngagementScores d.scores).conversion_propensity ∧
    r.event_count = max 2 ((generateSessionData d.session).page_views + pyRandint 1 8 d.ecN) ∧
    r.segment = segmentValue (generateSessionData d.session).is_bounce
      (generateEngagementScores d.scores).engagement_score
      (generateEngagementScores d.scores).conversion_propensity
      (generateEngagementScores d.scores).churn_score
      (max 2 ((generateSessionData d.session).page_views + pyRandint 1 8 d.ecN)) ∧
    r.known_flag = true ∧
    r.anon_id = "KNOWN_" ++ u.anonPart ∧
    r.session_id = "SESS_" ++ u.sessPart ∧
    r.day_of_week = choiceD dayNames d.dayN ∧
    r.is_weekend = decide (choiceD dayNames d.weekendN ∈ (["Saturday", "Sunday"] : List String)) ∧
    r.email.isSome = true ∧ r.phone_number.isSome = true ∧ r.dob.isSome = true ∧
    r.age.isSome = true ∧ r.income_level.isSome = true ∧ r.life_stage.isSome = true ∧
    r.purchase_frequency.isSome = true ∧ r.purchase_value.isSome = true ∧
    r.brand_loyalty.isSome = true ∧ r.shopping_channel.isSome = true := by
  obtain ⟨r0, haux, hru⟩ := generateRecord_ok h
  obtain ⟨geo, dev, email, ageR, il, ls, utm, pur, traits, hgeo, hdev, hemail,
    hage, hinc, hlife, hutm, hpur, htraits, hr0⟩ := generateRecordAux_ok haux
  subst hr0
  subst hru
  exact ⟨rfl, rfl, rfl, rfl, rfl, rfl, rfl, rfl, rfl, rfl, rfl, rfl, rfl, rfl,
    rfl, rfl, rfl, rfl, rfl, rfl, rfl, rfl⟩

/-! ## Claim C1 -/

/-- Claim C1: in the segment derivation of generate_enhanced_dataset, the
first condition (is_bounce and engagement_score < 30 assigning
'low-engagement') is evaluated non-exclusively: the subsequent if/elif/else
chain still runs and, ending in an unconditional else, overwrites the
assignment.  For every generated record with is_bounce_session = true and
engagement_score = 10 the first condition fires (first conjunct), yet the
final segment is the first matching branch of the subsequent chain (second
conjunct) and never remains 'low-engagement' (third conjunct). -/
theorem C1_segment_chain_overwrites (cfg : Config) (today : Nat) (d : RecordDraws)
    (u : UuidSrc) (r : CustomerRecord) (h : generateRecord cfg today d u = .ok r)
    (hb : r.is_bounce_session = true) (he : r.engagement_score = 10) :
    segmentFirstStep true 10 none = some "low-engagement" ∧
    r.segment = segmentChain 10 r.conversion_propensity r.churn_risk_score r.event_count ∧
    r.segment ≠ "low-engagement" := by
  obtain ⟨hb', hpv', he', hch', hcv', hec', hseg', hrest⟩ := generateRecord_fields h
  rw [hb'] at hb
  rw [he'] at he
  refine ⟨by simp [segmentFirstStep], ?_, ?_⟩
  · rw [hseg', hch', hcv', hec', hb, he]
    simp [segmentValue, segmentSecondStep]
  · rw [hseg', hb, he]
    simp only [segmentValue, segmentSecondStep]
    exact segmentChain_ne_low _ _ _ _

/-- Concrete instantiation of C1_segment_chain_overwrites: drawsBase produces
a bounce session with engagement score 10. -/
theorem C1_segment_chain_overwrites_witness :
    Option.elim (generateRecord builtinConfig 20000 drawsBase uuidA).toOption False
      (fun r => r.segment =
          segmentChain 10 r.conversion_propensity r.churn_risk_score r.event_count ∧
        r.segment ≠ "low-engagement") := by
  cases hg : generateRecord builtinConfig 20000 drawsBase uuidA with
  | error e =>
    have hsome : (generateRecord builtinConfig 20000 drawsBase uuidA).toOption.isSome = true := by
      with_unfolding_all decide
    rw [hg] at hsome
    simp [Except.toOption] at hsome
  | ok r =>
    have hb : (generateRecord builtinConfig 20000 drawsBase uuidA).toOption.map
        (fun x => x.is_bounce_session) = some true := by with_unfolding_all decide
    have he : (generateRecord builtinConfig 20000 drawsBase uuidA).toOption.map
        (fun x => x.engagement_score) = some 10 := by with_unfolding_all decide
    rw [hg] at hb he
    simp only [Except.toOption, Option.map_some'] at hb he
    have h1 := C1_segment_chain_overwrites builtinConfig 20000 drawsBase uuidA r hg
      (Option.some.inj hb) (Option.some.inj he)
    simp only [hg, Except.toOption, Option.elim]
    exact ⟨h1.2.1, h1.2.2⟩

theorem generateGeoData_builtin_mem {d : GeoDraws} {g : GeoResult}
    (h : generateGeoData builtinConfig d = .ok g) :
    g.country ∈ builtinConfig.apj_countries.map Prod.fst ∧
    ∃ cd, assocLookup builtinConfig.apj_countries g.country = some cd ∧
      g.city ∈ cd.cities ∧ g.state ∈ cd.states ∧ g.timezone = cd.timezone := by
  unfold generateGeoData at h
  obtain ⟨c, hc, h⟩ := bind_ok_inv h
  cases hl : assocLookup builtinConfig.apj_countries c with
  | none => rw [hl] at h; exact absurd h (by simp)
  | some cd =>
    rw [hl] at h
    obtain ⟨city, hcity, h⟩ := bind_ok_inv h
    obtain ⟨st, hst, h⟩ := bind_ok_inv h
    obtain ⟨lt, hlt, h⟩ := bind_ok_inv h
    have hr := (Except.ok.inj h).symm
    subst hr
    exact ⟨npChoice_ok_mem hc,
      cd, hl, pyChoice_ok_mem hcity, pyChoice_ok_mem hst, rfl⟩

theorem generateDeviceData_builtin_mem {d : DeviceDraws} {dev : DeviceResult}
    (h : generateDeviceData builtinConfig d = .ok dev) :
    (∃ di, assocLookup builtinConfig.devices dev.device_type = some di ∧
      dev.browser ∈ di.browsers ∧ dev.operating_system ∈ di.os) ∧
    dev.screen_resolution ∈ (["375x667", "414x896", "360x640", "393x851", "428x926",
      "1920x1080", "1366x768", "1536x864", "2560x1440", "1440x900",
      "768x1024", "1024x768", "820x1180", "810x1080"] : List String) ∧
    dev.viewport_size ∈ (["375x667", "414x896", "360x640", "393x851", "428x926",
      "1200x800", "1366x768", "1536x864", "1920x1080",
      "768x1024", "1024x768", "820x1180", "810x1080"] : List String) := by
  unfold generateDeviceData at h
  obtain ⟨dt, hdt, h⟩ := bind_ok_inv h
  cases hl : assocLookup builtinConfig.devices dt with
  | none => rw [hl] at h; exact absurd h (by simp)
  | some di =>
    rw [hl] at h
    obtain ⟨br, hbr, h⟩ := bind_ok_inv h
    obtain ⟨osn, hos, h⟩ := bind_ok_inv h
    by_cases h1 : dt = "mobile"
    · rw [if_pos h1] at h
      have hr := (Except.ok.inj h).symm
      subst hr
      refine ⟨⟨di, hl, pyChoice_ok_mem hbr, pyChoice_ok_mem hos⟩, ?_, ?_⟩
      · exact (by decide : (["375x667", "414x896", "360x640", "393x851", "428x926"] :
          List String) ⊆ ["375x667", "414x896", "360x640", "393x851", "428x926",
          "1920x1080", "1366x768", "1536x864", "2560x1440", "1440x900",
          "768x1024", "1024x768", "820x1180", "810x1080"])
          (choiceD_mem _ _ (by decide))
      · exact (by decide : (["375x667", "414x896", "360x640", "393x851", "428x926"] :
          List String) ⊆ ["375x667", "414x896", "360x640", "393x851", "428x926",
          "1200x800", "1366x768", "1536x864", "1920x1080",
          "768x1024", "1024x768", "820x1180", "810x1080"])
          (choiceD_mem _ _ (by decide))
    · rw [if_neg h1] at h
      by_cases h2 : dt = "desktop"
      · rw [if_pos h2] at h
        have hr := (Except.ok.inj h).symm
        subst hr
        refine ⟨⟨di, hl, pyChoice_ok_mem hbr, pyChoice_ok_mem hos⟩, ?_, ?_⟩
        · exact (by decide : (["1920x1080", "1366x768", "1536x864", "2560x1440", "1440x900"] :
            List String) ⊆ ["375x667", "414x896", "360x640", "393x851", "428x926",
            "1920x1080", "1366x768", "1536x864", "2560x1440", "1440x900",
            "768x1024", "1024x768", "820x1180", "810x1080"])
            (choiceD_mem _ _ (by decide))
        · exact (by decide : (["1200x800", "1366x768", "1536x864", "1920x1080"] :
            List String) ⊆ ["375x667", "414x896", "360x640", "393x851", "428x926",
            "1200x800", "1366x768", "1536x864", "1920x1080",
            "768x1024", "1024x768", "820x1180", "810x1080"])
            (choiceD_mem _ _ (by decide))
      · rw [if_neg h2] at h
        have hr := (Except.ok.inj h).symm
        subst hr
        refine ⟨⟨di, hl, pyChoice_ok_mem hbr, pyChoice_ok_mem hos⟩, ?_, ?_⟩
        · exact (by decide : (["768x1024", "1024x768", "820x1180", "810x1080"] :
            List String) ⊆ ["375x667", "414x896", "360x640", "393x851", "428x926",
            "1920x1080", "1366x768", "1536x864", "2560x1440", "1440x900",
            "768x1024", "1024x768", "820x1180", "810x1080"])
            (choiceD_mem _ _ (by decide))
        · exact (by decide : (["768x1024", "1024x768", "820x1180", "810x1080"] :
            List String) ⊆ ["375x667", "414x896", "360x640", "393x851", "428x926",
            "1200x800", "1366x768", "1536x864", "1920x1080",
            "768x1024", "1024x768", "820x1180", "810x1080"])
            (choiceD_mem _ _ (by decide))

theorem generateAgeAndBand_ok_band_mem {cfg : Config} {today : Nat} {d : AgeDraws}
    {ageR : AgeResult} (h : generateAgeAndBand cfg today d = .ok ageR) :
    ageR.age_band ∈ cfg.age_bands.map (fun b => b.2.2) := by
  unfold generateAgeAndBand at h
  obtain ⟨idx, hidx, h⟩ := bind_ok_inv h
  cases hg : cfg.age_bands.get? idx with
  | none => rw [hg] at h; exact absurd h (by simp)
  | some band =>
    rw [hg] at h
    have hr := (Except.ok.inj h).symm
    subst hr
    exact List.mem_map_of_mem _ (List.get?_mem hg)

theorem generateBehavioralTraits_builtin_mem {es : Int} {il ab ls : String}
    {d : TraitDraws} {tr : TraitsResult}
    (h : generateBehavioralTraits builtinConfig es il ab ls d = .ok tr) :
    tr.engagement_behavior ∈ builtinConfig.engagement_behaviors ∧
    tr.price_sensitivity ∈ builtinConfig.price_sensitivities ∧
    tr.product_interest ∈ builtinConfig.product_interests := by
  have heb : ∀ x : Int, (if 80 ≤ x then "active_buyer"
      else if 60 ≤ x then "researcher"
      else if 40 ≤ x then "browser"
      else "passive") ∈ builtinConfig.engagement_behaviors := by
    intro x
    split_ifs <;> decide
  have hpi : (if ls = "student" then choiceD ["electronics", "fashion", "books_media"] d.interestN
      else if ls = "young_professional" then
        choiceD ["electronics", "fashion", "health_beauty"] d.interestN
      else if ls = "parent" then
        choiceD ["home_garden", "health_beauty", "electronics"] d.interestN
      else if ls = "empty_nester" then
        choiceD ["home_garden", "health_beauty", "sports_outdoors"] d.interestN
      else choiceD ["home_garden", "health_beauty", "books_media"] d.interestN)
      ∈ builtinConfig.product_interests := by
    split_ifs
    · exact (by decide : (["electronics", "fashion", "books_media"] : List String) ⊆
        builtinConfig.product_interests) (choiceD_mem _ _ (by decide))
    · exact (by decide : (["electronics", "fashion", "health_beauty"] : List String) ⊆
        builtinConfig.product_interests) (choiceD_mem _ _ (by decide))
    · exact (by decide : (["home_garden", "health_beauty", "electronics"] : List String) ⊆
        builtinConfig.product_interests) (choiceD_mem _ _ (by decide))
    · exact (by decide : (["home_garden", "health_beauty", "sports_outdoors"] : List String) ⊆
        builtinConfig.product_interests) (choiceD_mem _ _ (by decide))
    · exact (by decide : (["home_garden", "health_beauty", "books_media"] : List String) ⊆
        builtinConfig.product_interests) (choiceD_mem _ _ (by decide))
  unfold generateBehavioralTraits at h
  by_cases h1 : il = "luxury"
  · rw [if_pos h1] at h
    obtain ⟨ps, hps, h⟩ := bind_ok_inv h
    have hr := (Except.ok.inj h).symm
    subst hr
    exact ⟨heb es, npChoice_ok_mem hps, hpi⟩
  · rw [if_neg h1] at h
    by_cases h2 : il = "mid_tier"
    · rw [if_pos h2] at h
      obtain ⟨ps, hps, h⟩ := bind_ok_inv h
      have hr := (Except.ok.inj h).symm
      subst hr
      exact ⟨heb es, npChoice_ok_mem hps, hpi⟩
    · rw [if_neg h2] at h
      obtain ⟨ps, hps, h⟩ := bind_ok_inv h
      have hr := (Except.ok.inj h).symm
      subst hr
      exact ⟨heb es, npChoice_ok_mem hps, hpi⟩

theorem generateUtmData_builtin_mem {d : UtmDraws} {utm : UtmResult}
    (h : generateUtmData builtinConfig d = .ok utm) :
    utm.utm_source ∈ builtinConfig.utm_sources ∧
    utm.utm_medium ∈ builtinConfig.utm_mediums ∧
    (∀ c, utm.utm_campaign = some c →
      c ∈ (["customer_retention", "loyalty_program", "new_product_launch",
            "personalized_offer", "winback_campaign"] : List String)) := by
  unfold generateUtmData at h
  by_cases hb : d.branchU < 0.3
  · rw [if_pos hb] at h
    have hr := (Except.ok.inj h).symm
    subst hr
    refine ⟨?_, ?_, ?_⟩
    · show choiceD ["direct", "organic"] d.srcN ∈ builtinConfig.utm_sources
      exact (by decide : (["direct", "organic"] : List String) ⊆ builtinConfig.utm_sources)
        (choiceD_mem _ _ (by decide))
    · show (if choiceD ["direct", "organic"] d.srcN = "organic" then "organic" else "direct")
        ∈ builtinConfig.utm_mediums
      split_ifs <;> decide
    · intro c hc
      exact Option.noConfusion hc
  · rw [if_neg hb] at h
    obtain ⟨src, hsrc, h⟩ := bind_ok_inv h
    obtain ⟨med, hmed, h⟩ := bind_ok_inv h
    have hr := (Except.ok.inj h).symm
    subst hr
    refine ⟨pyChoice_ok_mem hsrc, pyChoice_ok_mem hmed, ?_⟩
    intro c hc
    have hcc : c = choiceD ["customer_retention", "loyalty_program", "new_product_launch",
        "personalized_offer", "winback_campaign"] d.campN := (Option.some.inj hc).symm
    rw [hcc]
    exact choiceD_mem _ _ (by decide)

def drawsEng80 : RecordDraws :=
  { drawsBase with scores := { engZ := 80, churnB := 0, convB := 0 } }

/-- Claim C2 as stated is false: the segment ladder emits labels outside the
declared segments set.  With engagement draw 80 the chain's second branch
fires and the generated record's segment is 'high-engagement', which is not
in the declared set {new-customer, returning, high-value, medium-value,
low-value, vip, at-risk, loyal, re-engaged}. -/
theorem C2_counterexample :
    ((generateRecord builtinConfig 20000 drawsEng80 uuidA).toOption.map
      (fun r => r.segment) = some "high-engagement") ∧
    "high-engagement" ∉ builtinConfig.segments := by
  constructor
  · with_unfolding_all decide
  · decide

/-- Claim C2 (amended): for every generated record, every categorical field
except segment is a member of its declared category set — device_type;
income_level, life_stage, locality_type and the four purchase fields;
the three behavioral-trait fields; age_band; browser and operating system
within the device_type's declared lists; screen resolution and viewport
within the hard-coded resolution lists; city, state and timezone within the
drawn country's entry and the country within the country table; utm source,
medium and campaign; referrer_domain (when set) within the utm sources;
landing_page; and day_of_week.  The segment field alone escapes: it is a
member of the ladder's own label set, which is not contained in the declared
segments set. -/
theorem C2_categorical_fields (today : Nat) (d : RecordDraws) (u : UuidSrc)
    (r : CustomerRecord) (h : generateRecord builtinConfig today d u = .ok r) :
    r.device_type ∈ (["mobile", "desktop", "tablet"] : List String) ∧
    (∀ il, r.income_level = some il → il ∈ builtinConfig.income_levels) ∧
    (∀ ls, r.life_stage = some ls → ls ∈ builtinConfig.life_stages) ∧
    r.locality_type ∈ builtinConfig.locality_types ∧
    (∀ x, r.purchase_frequency = some x → x ∈ builtinConfig.purchase_frequencies) ∧
    (∀ x, r.purchase_value = some x → x ∈ builtinConfig.purchase_values) ∧
    (∀ x, r.brand_loyalty = some x → x ∈ builtinConfig.brand_loyalties) ∧
    (∀ x, r.shopping_channel = some x → x ∈ builtinConfig.shopping_channels) ∧
    r.engagement_behavior ∈ builtinConfig.engagement_behaviors ∧
    r.price_sensitivity ∈ builtinConfig.price_sensitivities ∧
    r.product_interest ∈ builtinConfig.product_interests ∧
    r.age_band ∈ builtinConfig.age_bands.map (fun b => b.2.2) ∧
    (∃ di, assocLookup builtinConfig.devices r.device_type = some di ∧
      r.browser_name ∈ di.browsers ∧ r.operating_system ∈ di.os) ∧
    r.screen_resolution ∈ (["375x667", "414x896", "360x640", "393x851", "428x926",
      "1920x1080", "1366x768", "1536x864", "2560x1440", "1440x900",
      "768x1024", "1024x768", "820x1180", "810x1080"] : List String) ∧
    r.viewport_size ∈ (["375x667", "414x896", "360x640", "393x851", "428x926",
      "1200x800", "1366x768", "1536x864", "1920x1080",
      "768x1024", "1024x768", "820x1180", "810x1080"] : List String) ∧
    r.geo_country ∈ builtinConfig.apj_countries.map Prod.fst ∧
    (∃ cd, assocLookup builtinConfig.apj_countries r.geo_country = some cd ∧
      r.geo_city ∈ cd.cities ∧ r.geo_state ∈ cd.states ∧ r.timezone = cd.timezone) ∧
    r.utm_source ∈ builtinConfig.utm_sources ∧
    r.utm_medium ∈ builtinConfig.utm_mediums ∧
    (∀ c, r.utm_campaign = some c →
      c ∈ (["customer_retention", "loyalty_program", "new_product_launch",
            "personalized_offer", "winback_campaign"] : List String)) ∧
    (∀ s, r.referrer_domain = some s → s ∈ builtinConfig.utm_sources) ∧
    r.landing_page ∈ (["homepage", "product", "account", "category"] : List String) ∧
    r.day_of_week ∈ dayNames ∧
    r.segment ∈ (["vip", "high-engagement", "at-risk", "loyal", "medium-engagement",
      "new-visitor", "re-engaged", "returning"] : List String) ∧
    ¬ ((["vip", "high-engagement", "at-risk", "loyal", "medium-engagement",
      "new-visitor", "re-engaged", "returning"] : List String) ⊆ builtinConfig.segments) := by
  obtain ⟨r0, haux, hru⟩ := generateRecord_ok h
  obtain ⟨geo, dev, email, ageR, il, ls, utm, pur, traits, hgeo, hdev, hemail,
    hage, hinc, hlife, hutm, hpur, htraits, hr0⟩ := generateRecordAux_ok haux
  subst hr0
  subst hru
  obtain ⟨hpf, hpv, hbl, hsc⟩ := generatePurchaseBehavior_ok_mem hpur
  obtain ⟨hgc, cd, hcd, hcity, hstate, htz⟩ := generateGeoData_builtin_mem hgeo
  obtain ⟨⟨di, hdi, hbr, hos⟩, hsr, hvp⟩ := generateDeviceData_builtin_mem hdev
  obtain ⟨heb, hps, hpi⟩ := generateBehavioralTraits_builtin_mem htraits
  obtain ⟨hus, hum, hcamp⟩ := generateUtmData_builtin_mem hutm
  have hband := generateAgeAndBand_ok_band_mem hage
  refine ⟨generateDeviceData_ok_mem hdev, ?_, ?_, ?_, ?_, ?_, ?_, ?_, heb, hps, hpi,
    hband, ⟨di, hdi, hbr, hos⟩, hsr, hvp, hgc, ⟨cd, hcd, hcity, hstate, htz⟩,
    hus, hum, ?_, ?_, ?_, ?_, ?_, ?_⟩
  · intro x hx
    have : il = x := by simpa [assembleRecord] using hx
    exact this ▸ generateIncomeLevel_ok_mem hinc
  · intro x hx
    have : ls = x := by simpa [assembleRecord] using hx
    exact this ▸ generateLifeStage_ok_mem hlife
  · show geo.locality_type ∈ builtinConfig.locality_types
    rw [generateGeoData_builtin_metro hgeo]
    decide
  · intro x hx
    have : pur.purchase_frequency = x := by simpa [assembleRecord] using hx
    exact this ▸ hpf
  · intro x hx
    have : pur.purchase_value = x := by simpa [assembleRecord] using hx
    exact this ▸ hpv
  · intro x hx
    have : pur.brand_loyalty = x := by simpa [assembleRecord] using hx
    exact this ▸ hbl
  · intro x hx
    have : pur.shopping_channel = x := by simpa [assembleRecord] using hx
    exact this ▸ hsc
  · intro c hc
    have : utm.utm_campaign = some c := by simpa [assembleRecord] using hc
    exact hcamp c this
  · intro s hs
    have hs' : (if utm.utm_source ∈ (["direct", "organic"] : List String) then none
        else some utm.utm_source) = some s := hs
    by_cases hm : utm.utm_source ∈ (["direct", "organic"] : List String)
    · rw [if_pos hm] at hs'
      exact absurd hs' (by simp)
    · rw [if_neg hm] at hs'
      exact (Option.some.inj hs') ▸ hus
  · exact choiceD_mem _ _ (by decide)
  · exact choiceD_mem _ _ (by decide)
  · have hseg : (assembleRecord d geo dev email ageR il ls utm pur traits).segment ∈
        (["vip", "high-engagement", "at-risk", "loyal", "medium-engagement",
          "new-visitor", "re-engaged", "returning"] : List String) := by
      simp only [assembleRecord, segmentValue, segmentSecondStep]
      exact segmentChain_mem _ _ _ _
    exact hseg
  · decide

/-- Concrete instantiation of C2_categorical_fields. -/
theorem C2_categorical_fields_witness :
    Option.elim (generateRecord builtinConfig 20000 drawsBase uuidB).toOption False
      (fun r => r.device_type ∈ (["mobile", "desktop", "tablet"] : List String)) := by
  cases hg : generateRecord builtinConfig 20000 drawsBase uuidB with
  | error e =>
    have hsome : (generateRecord builtinConfig 20000 drawsBase uuidB).toOption.isSome = true := by
      with_unfolding_all decide
    rw [hg] at hsome
    simp [Except.toOption] at hsome
  | ok r =>
    simp only [hg, Except.toOption, Option.elim]
    exact (C2_categorical_fields 20000 drawsBase uuidB r hg).1

/-! ## Claim C3 -/

/-- Claim C3 as stated is false: with identical configuration and identical
seeded draws (the model of a fixed seed), two runs whose uuid4 entropy
differs produce records that differ in the anon_id field, because
uuid.uuid4() reads OS entropy that no seed controls. -/
theorem C3_counterexample :
    ((generateRecord builtinConfig 20000 drawsBase uuidA).toOption.map
        (fun r => r.anon_id) = some "KNOWN_AAAA1111BBBB") ∧
    ((generateRecord builtinConfig 20000 drawsBase uuidB).toOption.map
        (fun r => r.anon_id) = some "KNOWN_CCCC2222DDDD") ∧
    "KNOWN_AAAA1111BBBB" ≠ "KNOWN_CCCC2222DDDD" := by
  refine ⟨?_, ?_, ?_⟩
  · with_unfolding_all decide
  · with_unfolding_all decide
  · decide

/-- Claim C3 (amended): the record generator is a deterministic function of
the seeded draws, the clock and the uuid4 entropy.  Two runs with equal
configuration, clock and seeded draws agree on every field except anon_id
and session_id, which are determined by the respective runs' uuid4 entropy;
bit-identical outputs therefore need the uuid entropy (and clock) fixed in
addition to the seed. -/
theorem C3_seeded_determinism (cfg : Config) (today : Nat) (d : RecordDraws)
    (u1 u2 : UuidSrc) (r1 r2 : CustomerRecord)
    (h1 : generateRecord cfg today d u1 = .ok r1)
    (h2 : generateRecord cfg today d u2 = .ok r2) :
    r1 = { r2 with anon_id := "KNOWN_" ++ u1.anonPart,
                   session_id := "SESS_" ++ u1.sessPart } := by
  obtain ⟨r0, haux1, hr1⟩ := generateRecord_ok h1
  obtain ⟨r0', haux2, hr2⟩ := generateRecord_ok h2
  rw [haux1] at haux2
  have h0 : r0 = r0' := Except.ok.inj haux2
  subst h0
  subst hr1
  subst hr2
  rfl

/-- Concrete instantiation of C3_seeded_determinism at two different uuid
entropies. -/
theorem C3_seeded_determinism_witness :
    Option.elim (generateRecord builtinConfig 20000 drawsBase uuidA).toOption False
      (fun r1 =>
        Option.elim (generateRecord builtinConfig 20000 drawsBase uuidB).toOption False
          (fun r2 => r1 = { r2 with anon_id := "KNOWN_" ++ uuidA.anonPart,
                                    session_id := "SESS_" ++ uuidA.sessPart })) := by
  cases hg1 : generateRecord builtinConfig 20000 drawsBase uuidA with
  | error e =>
    have hsome : (generateRecord builtinConfig 20000 drawsBase uuidA).toOption.isSome = true := by
      with_unfolding_all decide
    rw [hg1] at hsome
    simp [Except.toOption] at hsome
  | ok r1 =>
    cases hg2 : generateRecord builtinConfig 20000 drawsBase uuidB with
    | error e =>
      have hsome : (generateRecord builtinConfig 20000 drawsBase uuidB).toOption.isSome = true := by
        with_unfolding_all decide
      rw [hg2] at hsome
      simp [Except.toOption] at hsome
    | ok r2 =>
      simp only [hg1, hg2, Except.toOption, Option.elim]
      exact C3_seeded_determinism builtinConfig 20000 drawsBase uuidA uuidB r1 r2 hg1 hg2

/-! ## Claim C4 -/

/-- Claim C4: in every generated record, engagement_score is the integer
Normal(65, 18) draw clamped into [0, 100], churn_risk_score and
conversion_propensity are the Beta(1.5, 6) and Beta(4, 6) draws (support
[0, 1]) rounded to three decimals and hence lie in [0, 1]; each of the three
is a function of its own raw draw alone (the stated equalities), so none
depends on any other field of the record. -/
theorem C4_score_ranges (cfg : Config) (today : Nat) (d : RecordDraws)
    (u : UuidSrc) (r : CustomerRecord) (h : generateRecord cfg today d u = .ok r)
    (hc0 : 0 ≤ d.scores.churnB) (hc1 : d.scores.churnB ≤ 1)
    (hv0 : 0 ≤ d.scores.convB) (hv1 : d.scores.convB ≤ 1) :
    r.engagement_score = max 0 (min 100 d.scores.engZ) ∧
    0 ≤ r.engagement_score ∧ r.engagement_score ≤ 100 ∧
    r.churn_risk_score = pyRound 3 d.scores.churnB ∧
    r.conversion_propensity = pyRound 3 d.scores.convB ∧
    0 ≤ r.churn_risk_score ∧ r.churn_risk_score ≤ 1 ∧
    0 ≤ r.conversion_propensity ∧ r.conversion_propensity ≤ 1 := by
  obtain ⟨hb', hpv', he', hch', hcv', hrest⟩ := generateRecord_fields h
  have hch := pyRound_mem_unit 3 d.scores.churnB hc0 hc1
  have hcv := pyRound_mem_unit 3 d.scores.convB hv0 hv1
  refine ⟨he', ?_, ?_, hch', hcv', ?_, ?_, ?_, ?_⟩
  · rw [he']; exact le_max_left 0 _
  · rw [he']
    exact max_le (by norm_num) (min_le_left 100 d.scores.engZ)
  · rw [hch']; exact hch.1
  · rw [hch']; exact hch.2
  · rw [hcv']; exact hcv.1
  · rw [hcv']; exact hcv.2

def drawsC4 : RecordDraws :=
  { drawsBase with scores := { engZ := 142, churnB := 1/2, convB := 1/4 } }

/-- Concrete instantiation of C4_score_ranges (the raw Normal draw 142 is
clamped to 100). -/
theorem C4_score_ranges_witness :
    Option.elim (generateRecord builtinConfig 20000 drawsC4 uuidA).toOption False
      (fun r => r.engagement_score = 100 ∧ 0 ≤ r.churn_risk_score ∧
        r.churn_risk_score ≤ 1) := by
  cases hg : generateRecord builtinConfig 20000 drawsC4 uuidA with
  | error e =>
    have hsome : (generateRecord builtinConfig 20000 drawsC4 uuidA).toOption.isSome = true := by
      with_unfolding_all decide
    rw [hg] at hsome
    simp [Except.toOption] at hsome
  | ok r =>
    have h4 := C4_score_ranges builtinConfig 20000 drawsC4 uuidA r hg
      (show (0 : Rat) ≤ 1/2 by norm_num) (show (1 : Rat)/2 ≤ 1 by norm_num)
      (show (0 : Rat) ≤ 1/4 by norm_num) (show (1 : Rat)/4 ≤ 1 by norm_num)
    simp only [hg, Except.toOption, Option.elim]
    refine ⟨?_, h4.2.2.2.2.2.1, h4.2.2.2.2.2.2.1⟩
    rw [h4.1]
    decide

/-! ## Claim C5 -/

/-- Every probability vector stored in the built-in purchase_value_matrix is
a valid numpy choice vector over the three purchase values. -/
theorem builtin_purchase_value_vectors_valid :
    ∀ v ∈ builtinConfig.purchase_value_matrix.map Prod.snd,
      builtinConfig.purchase_values.length = v.length ∧
      v.all (fun q => decide (0 ≤ q)) = true ∧
      |sumList v - 1| ≤ npAtol := by
  with_unfolding_all decide

/-- Claim C5: for every (age_band, income_level) pair, the purchase_value
stage of _generate_purchase_behavior never raises: the draw succeeds for any
uniform draw in [0, 1) (first conjunct), it uses the matrix vector when the
pair is a key (second conjunct), and exactly the default vector
[0.50, 0.35, 0.15] otherwise (third conjunct). -/
theorem C5_purchase_value_fallback (ageBand incomeLevel : String) (u : Rat)
    (hu0 : 0 ≤ u) (hu1 : u < 1) :
    (∃ pv, npChoice builtinConfig.purchase_values
        (purchaseValueProbs builtinConfig ageBand incomeLevel) u = .ok pv ∧
      pv ∈ builtinConfig.purchase_values) ∧
    (∀ v, assocLookup builtinConfig.purchase_value_matrix (ageBand, incomeLevel) = some v →
      purchaseValueProbs builtinConfig ageBand incomeLevel = v) ∧
    (assocLookup builtinConfig.purchase_value_matrix (ageBand, incomeLevel) = none →
      purchaseValueProbs builtinConfig ageBand incomeLevel = [0.50, 0.35, 0.15]) := by
  refine ⟨?_, ?_, ?_⟩
  · cases hl : assocLookup builtinConfig.purchase_value_matrix (ageBand, incomeLevel) with
    | none =>
      have hp : purchaseValueProbs builtinConfig ageBand incomeLevel = [0.50, 0.35, 0.15] := by
        unfold purchaseValueProbs
        rw [hl]
      rw [hp]
      exact npChoice_ok_exists _ _ u (by with_unfolding_all decide)
        (by with_unfolding_all decide) (by with_unfolding_all decide) hu0 hu1
    | some v =>
      have hp : purchaseValueProbs builtinConfig ageBand incomeLevel = v := by
        unfold purchaseValueProbs
        rw [hl]
      rw [hp]
      have hv := builtin_purchase_value_vectors_valid v (assocLookup_some_mem_snd _ _ _ hl)
      exact npChoice_ok_exists _ _ u hv.1 hv.2.1 hv.2.2 hu0 hu1
  · intro v hl
    unfold purchaseValueProbs
    rw [hl]
  · intro hl
    unfold purchaseValueProbs
    rw [hl]

/-- Concrete instantiation of C5_purchase_value_fallback on an unmapped pair
and on a mapped pair. -/
theorem C5_purchase_value_fallback_witness :
    purchaseValueProbs builtinConfig "18-24" "unknown_income" = [0.50, 0.35, 0.15] ∧
    purchaseValueProbs builtinConfig "18-24" "luxury" = [0.30, 0.50, 0.20] := by
  constructor
  · exact (C5_purchase_value_fallback "18-24" "unknown_income" 0 le_rfl
      (by norm_num)).2.2 (by decide)
  · exact (C5_purchase_value_fallback "18-24" "luxury" 0 le_rfl
      (by norm_num)).2.1 [0.30, 0.50, 0.20] (by with_unfolding_all decide)

/-! ## Claim C6 -/

/-- Claim C6: the bounce branch of _generate_session_data (taken exactly when
the uniform bounce draw is below 0.15) yields an integer randint(15,60)
duration, one page view and is_bounce true; the other branch yields the
Gamma draw clipped into [45, 4800], a Poisson page-view count floored at 2
and is_bounce false; in either case page_views is at least 1, and hence so
is the page_views field of every generated record. -/
theorem C6_session_branches (d : SessionDraws) :
    (d.bounceU < 0.15 →
      (generateSessionData d).is_bounce = true ∧
      (generateSessionData d).page_views = 1 ∧
      (generateSessionData d).duration = ((pyRandint 15 60 d.bounceDurN : Nat) : Rat) ∧
      15 ≤ (generateSessionData d).duration ∧ (generateSessionData d).duration ≤ 60) ∧
    (¬ d.bounceU < 0.15 →
      (generateSessionData d).is_bounce = false ∧
      (generateSessionData d).duration = max 45 (min d.gammaD 4800) ∧
      45 ≤ (generateSessionData d).duration ∧ (generateSessionData d).duration ≤ 4800 ∧
      (generateSessionData d).page_views = max 2 d.poissonN ∧
      2 ≤ (generateSessionData d).page_views) ∧
    1 ≤ (generateSessionData d).page_views ∧
    (∀ cfg today rd u r, generateRecord cfg today rd u = Except.ok r →
      1 ≤ r.page_views) := by
  have hpv : ∀ s : SessionDraws, 1 ≤ (generateSessionData s).page_views := by
    intro s
    by_cases hb : s.bounceU < 0.15
    · rw [generateSessionData_bounce hb]
    · rw [generateSessionData_nonbounce hb]
      exact le_trans (by norm_num) (Nat.le_max_left 2 s.poissonN)
  refine ⟨?_, ?_, hpv d, ?_⟩
  · intro hb
    rw [generateSessionData_bounce hb]
    obtain ⟨hlo, hhi⟩ := pyRandint_bounds 15 60 d.bounceDurN (by norm_num)
    refine ⟨rfl, rfl, rfl, ?_, ?_⟩
    · show (15 : Rat) ≤ ((pyRandint 15 60 d.bounceDurN : Nat) : Rat)
      exact_mod_cast hlo
    · show ((pyRandint 15 60 d.bounceDurN : Nat) : Rat) ≤ 60
      exact_mod_cast hhi
  · intro hb
    rw [generateSessionData_nonbounce hb]
    refine ⟨rfl, rfl, le_max_left 45 _, ?_, rfl, Nat.le_max_left 2 _⟩
    exact max_le (by norm_num) (min_le_right d.gammaD 4800)
  · intro cfg today rd u r h
    obtain ⟨hb', hpv', hrest⟩ := generateRecord_fields h
    rw [hpv']
    exact hpv rd.session

def sessBounce : SessionDraws :=
  { bounceU := 0, bounceDurN := 7, gammaD := 0, poissonN := 0, scrollN := 0, clickN := 0 }

def sessNonBounce : SessionDraws :=
  { bounceU := 1, bounceDurN := 0, gammaD := 300, poissonN := 4, scrollN := 0, clickN := 0 }

/-- Concrete instantiation of C6_session_branches on both branches. -/
theorem C6_session_branches_witness :
    (generateSessionData sessBounce).is_bounce = true ∧
    (generateSessionData sessBounce).page_views = 1 ∧
    (generateSessionData sessNonBounce).is_bounce = false ∧
    2 ≤ (generateSessionData sessNonBounce).page_views := by
  have h1 := (C6_session_branches sessBounce).1
    (show (0 : Rat) < 0.15 by norm_num)
  have h2 := (C6_session_branches sessNonBounce).2.1
    (show ¬ (1 : Rat) < 0.15 by norm_num)
  exact ⟨h1.1, h1.2.1, h2.1, h2.2.2.2.2.2⟩

/-! ## Claim C7 -/

/-- Claim C7: the moded sampler gates the known-only fields.  In anonymous
mode every known-only field (email, phone_number, dob, age, income_level,
life_stage, purchase_frequency, purchase_value, brand_loyalty,
shopping_channel) is none and known_flag is false; in known mode all of them
are populated and known_flag is true. -/
theorem C7_mode_gating (known : Bool) (cfg : Config) (today : Nat)
    (d : RecordDraws) (u : UuidSrc) (r : CustomerRecord)
    (h : sampleRecordModed known cfg today d u = .ok r) :
    (known = false → r.email = none ∧ r.phone_number = none ∧ r.dob = none ∧
      r.age = none ∧ r.income_level = none ∧ r.life_stage = none ∧
      r.purchase_frequency = none ∧ r.purchase_value = none ∧
      r.brand_loyalty = none ∧ r.shopping_channel = none ∧ r.known_flag = false) ∧
    (known = true → r.email.isSome = true ∧ r.phone_number.isSome = true ∧
      r.dob.isSome = true ∧ r.age.isSome = true ∧ r.income_level.isSome = true ∧
      r.life_stage.isSome = true ∧ r.purchase_frequency.isSome = true ∧
      r.purchase_value.isSome = true ∧ r.brand_loyalty.isSome = true ∧
      r.shopping_channel.isSome = true ∧ r.known_flag = true) := by
  cases known with
  | false =>
    refine ⟨fun _ => ?_, fun htrue => absurd htrue (by decide)⟩
    replace h : (generateRecord cfg today d u).map (fun r =>
      { r with known_flag := false, email := none, phone_number := none,
               dob := none, age := none, income_level := none, life_stage := none,
               purchase_frequency := none, purchase_value := none,
               brand_loyalty := none, shopping_channel := none }) = .ok r := h
    cases hg : generateRecord cfg today d u with
    | error e => rw [hg] at h; exact absurd h (by simp [Except.map])
    | ok r0 =>
      rw [hg] at h
      simp only [Except.map] at h
      have hr := (Except.ok.inj h).symm
      subst hr
      exact ⟨rfl, rfl, rfl, rfl, rfl, rfl, rfl, rfl, rfl, rfl, rfl⟩
  | true =>
    refine ⟨fun hfalse => absurd hfalse (by decide), fun _ => ?_⟩
    replace h : generateRecord cfg today d u = .ok r := h
    obtain ⟨hb', hpv', he', hch', hcv', hec', hseg', hkf, han, hsess, hday, hwk,
      hem, hph, hdob, hage, hil, hls, hpf, hpvv, hbl, hsc⟩ := generateRecord_fields h
    exact ⟨hem, hph, hdob, hage, hil, hls, hpf, hpvv, hbl, hsc, hkf⟩

/-- Concrete instantiation of C7_mode_gating in both modes. -/
theorem C7_mode_gating_witness :
    Option.elim (sampleRecordModed false builtinConfig 20000 drawsBase uuidB).toOption False
      (fun r => r.email = none ∧ r.known_flag = false) ∧
    Option.elim (sampleRecordModed true builtinConfig 20000 drawsBase uuidB).toOption False
      (fun r => r.email.isSome = true ∧ r.known_flag = true) := by
  constructor
  · cases hg : sampleRecordModed false builtinConfig 20000 drawsBase uuidB with
    | error e =>
      have hsome : (sampleRecordModed false builtinConfig 20000 drawsBase uuidB).toOption.isSome
          = true := by with_unfolding_all decide
      rw [hg] at hsome
      simp [Except.toOption] at hsome
    | ok r =>
      simp only [hg, Except.toOption, Option.elim]
      have h7 := (C7_mode_gating false builtinConfig 20000 drawsBase uuidB r hg).1 rfl
      exact ⟨h7.1, h7.2.2.2.2.2.2.2.2.2.2⟩
  · cases hg : sampleRecordModed true builtinConfig 20000 drawsBase uuidB with
    | error e =>
      have hsome : (sampleRecordModed true builtinConfig 20000 drawsBase uuidB).toOption.isSome
          = true := by with_unfolding_all decide
      rw [hg] at hsome
      simp [Except.toOption] at hsome
    | ok r =>
      simp only [hg, Except.toOption, Option.elim]
      have h7 := (C7_mode_gating true builtinConfig 20000 drawsBase uuidB r hg).2 rfl
      exact ⟨h7.1, h7.2.2.2.2.2.2.2.2.2.2⟩

/-! ## Claim C8 -/

/-- Claim C8: a malformed configuration fails fast.  A missing age-band key
in income_probabilities (or life_stage_probabilities) raises a KeyError; a
probability vector that does not sum to 1 within numpy's tolerance makes the
numpy draw raise a ValueError; a successful draw always lands inside the
declared category set (never silently out-of-domain); and the sole documented
exception is the purchase_value (age_band, income_level) lookup, which
degrades to the default vector [0.50, 0.35, 0.15]. -/
theorem C8_malformed_config_failfast (cfg : Config) (ageBand : String) (u : Rat) :
    (assocLookup cfg.income_probabilities ageBand = none →
      generateIncomeLevel cfg ageBand u =
        .error "KeyError: age_band not in income_probabilities") ∧
    (∀ probs, assocLookup cfg.income_probabilities ageBand = some probs →
      ¬ |sumList probs - 1| ≤ npAtol →
      ∃ e, generateIncomeLevel cfg ageBand u = .error e) ∧
    (∀ v, generateIncomeLevel cfg ageBand u = .ok v → v ∈ cfg.income_levels) ∧
    (assocLookup cfg.life_stage_probabilities ageBand = none →
      generateLifeStage cfg ageBand u =
        .error "KeyError: age_band not in life_stage_probabilities") ∧
    (∀ incomeLevel,
      assocLookup cfg.purchase_value_matrix (ageBand, incomeLevel) = none →
      purchaseValueProbs cfg ageBand incomeLevel = [0.50, 0.35, 0.15]) := by
  refine ⟨?_, ?_, ?_, ?_, ?_⟩
  · intro hl
    unfold generateIncomeLevel
    rw [hl]
  · intro probs hl hsum
    unfold generateIncomeLevel
    rw [hl]
    show ∃ e, npChoice cfg.income_levels probs u = Except.error e
    unfold npChoice
    by_cases h1 : cfg.income_levels.length = probs.length
    · rw [if_pos h1]
      by_cases h2 : probs.all (fun q => decide (0 ≤ q)) = true
      · rw [if_pos h2, if_neg hsum]
        exact ⟨_, rfl⟩
      · rw [if_neg h2]
        exact ⟨_, rfl⟩
    · rw [if_neg h1]
      exact ⟨_, rfl⟩
  · intro v hv
    exact generateIncomeLevel_ok_mem hv
  · intro hl
    unfold generateLifeStage
    rw [hl]
  · intro incomeLevel hl
    unfold purchaseValueProbs
    rw [hl]

def badConfigMissing : Config := { builtinConfig with income_probabilities := [] }

def badConfigSum : Config :=
  { builtinConfig with income_probabilities := [("18-24", [0.5, 0.2, 0.2])] }

/-- Concrete instantiation of C8_malformed_config_failfast on a configuration
with a missing key and one with a probability vector summing to 0.9. -/
theorem C8_malformed_config_failfast_witness :
    generateIncomeLevel badConfigMissing "18-24" 0 =
      .error "KeyError: age_band not in income_probabilities" ∧
    (∃ e, generateIncomeLevel badConfigSum "18-24" 0 = .error e) ∧
    purchaseValueProbs badConfigMissing "18-24" "unmapped_income" = [0.50, 0.35, 0.15] := by
  refine ⟨?_, ?_, ?_⟩
  · exact (C8_malformed_config_failfast badConfigMissing "18-24" 0).1 rfl
  · exact (C8_malformed_config_failfast badConfigSum "18-24" 0).2.1
      [0.5, 0.2, 0.2] (by with_unfolding_all decide) (by with_unfolding_all decide)
  · exact (C8_malformed_config_failfast badConfigMissing "18-24" 0).2.2.2.2
      "unmapped_income" (by decide)

/-! ## Claim C9 -/

def drawsDaySat : RecordDraws := { drawsBase with dayN := 5, weekendN := 0 }

def drawsDayMon : RecordDraws := { drawsBase with dayN := 0, weekendN := 5 }

/-- Claim C9: is_weekend comes from a second, independent uniform draw over
the seven weekday names, not from the record's day_of_week field: one draw
sequence yields day_of_week Saturday with is_weekend false, another yields
day_of_week Monday with is_weekend true. -/
theorem C9_weekend_independent_draw :
    ((generateRecord builtinConfig 20000 drawsDaySat uuidA).toOption.map
      (fun r => (r.day_of_week, r.is_weekend)) = some ("Saturday", false)) ∧
    ((generateRecord builtinConfig 20000 drawsDayMon uuidA).toOption.map
      (fun r => (r.day_of_week, r.is_weekend)) = some ("Monday", true)) := by
  constructor
  · with_unfolding_all decide
  · with_unfolding_all decide

/-! ## Claim C10 -/

theorem except_ok_bind {α β : Type} (a : α) (f : α → Except String β) :
    (Except.ok a >>= f) = f a := rfl

theorem except_error_bind {α β : Type} (e : String) (f : α → Except String β) :
    ((Except.error e : Except String α) >>= f) = Except.error e := rfl

/-- Claim C10: under the built-in configuration every city in every country's
cities list is mapped to 'metro' by city_types, so every successfully
generated geo result has locality_type 'metro', the weighted fallback draw on
locality_weights is never consumed (conjunct 3: the output does not depend on
the localityU draw at all), and the channel_by_locality vector looked up for
'metro' is [0.45, 0.15, 0.40]. -/
theorem C10_locality_always_metro (gd : GeoDraws) :
    (∀ p ∈ builtinConfig.apj_countries, ∀ city ∈ p.2.cities,
      assocLookup p.2.city_types city = some "metro") ∧
    (∀ g, generateGeoData builtinConfig gd = .ok g → g.locality_type = "metro") ∧
    (∀ x y, generateGeoData builtinConfig { gd with localityU := x } =
      generateGeoData builtinConfig { gd with localityU := y }) ∧
    assocLookup builtinConfig.channel_by_locality "metro" = some [0.45, 0.15, 0.40] := by
  refine ⟨builtin_city_types_metro, fun g h => generateGeoData_builtin_metro h, ?_,
    by with_unfolding_all decide⟩
  intro x y
  unfold generateGeoData
  dsimp only
  cases hc : npChoice (builtinConfig.apj_countries.map Prod.fst)
      ((builtinConfig.apj_countries.map (fun c => ((c.2.weight : Nat) : Rat))).map
        (fun w => w / sumList (builtinConfig.apj_countries.map
          (fun c => ((c.2.weight : Nat) : Rat)))))
      gd.countryU with
  | error e => rfl
  | ok c =>
    rw [except_ok_bind, except_ok_bind]
    cases hl : assocLookup builtinConfig.apj_countries c with
    | none => rfl
    | some cd =>
      dsimp only
      cases hcity : pyChoice cd.cities gd.cityN with
      | error e => rfl
      | ok city =>
        rw [except_ok_bind, except_ok_bind]
        have hmetro : assocLookup cd.city_types city = some "metro" :=
          builtin_city_types_metro (c, cd) (assocLookup_mem_pair _ _ _ hl)
            city (pyChoice_ok_mem hcity)
        cases hst : pyChoice cd.states gd.stateN with
        | error e => rfl
        | ok st =>
          rw [except_ok_bind, except_ok_bind, hmetro]

def geoBase : GeoDraws := { countryU := 0, cityN := 0, stateN := 0, localityU := 0 }

/-- Concrete instantiation of C10_locality_always_metro. -/
theorem C10_locality_always_metro_witness :
    Option.elim (generateGeoData builtinConfig geoBase).toOption False
      (fun g => g.locality_type = "metro") := by
  cases hg : generateGeoData builtinConfig geoBase with
  | error e =>
    have hsome : (generateGeoData builtinConfig geoBase).toOption.isSome = true := by
      with_unfolding_all decide
    rw [hg] at hsome
    simp [Except.toOption] at hsome
  | ok g =>
    simp only [hg, Except.toOption, Option.elim]
    exact (C10_locality_always_metro geoBase).2.1 g hg
